import Mathlib

/-!
Verification of the dashboard-builder repository: a shallow embedding of the
client-side dashboard tool API (`DashboardBuilderTools`), the path-addressing
helpers (`navigateToPath`, `setValueAtPath`) and the data-fetch pipeline
(`DataFetcher`), together with proofs about the grid-placement invariants,
error handling and caching behaviour.

JavaScript runtime values reachable from the dashboard state are JSON trees
(`JVal`); the JS distinction between `undefined` and `null` is kept by using
`Option JVal` for possibly-undefined values (with `none` playing `undefined`).
External collaborators (the network and the Handlebars/alasql engines) are
modelled as oracles supplied as explicit arguments.
-/

namespace DashboardBuilder

/-- A JSON value: the shape of all dashboard components, configs and payloads. -/
inductive JVal where
  | null : JVal
  | bool : Bool → JVal
  | num : Int → JVal
  | str : String → JVal
  | arr : List JVal → JVal
  | obj : List (String × JVal) → JVal

/-- First binding for a key in an association list (JS object property lookup). -/
def assocGet {β : Type} (fs : List (String × β)) (k : String) : Option β :=
  match fs with
  | [] => none
  | (k', v) :: rest => if k' = k then some v else assocGet rest k

/-- Replace the first binding for a key in place, or append it: the semantics of
`{...base, [k]: v}` and of `Map.set` with respect to JS key ordering. -/
def assocSet {β : Type} (fs : List (String × β)) (k : String) (v : β) : List (String × β) :=
  match fs with
  | [] => [(k, v)]
  | (k', v') :: rest => if k' = k then (k, v) :: rest else (k', v') :: assocSet rest k v

/-- Drop every binding for a key (JS `delete`), preserving the order of the rest. -/
def assocRemove {β : Type} (fs : List (String × β)) (k : String) : List (String × β) :=
  match fs with
  | [] => []
  | (k', v) :: rest => if k' = k then assocRemove rest k else (k', v) :: assocRemove rest k

/-- Apply a function to the first binding for a key, leaving absent keys alone. -/
def assocModify {β : Type} (fs : List (String × β)) (k : String) (f : β → β) :
    List (String × β) :=
  match fs with
  | [] => []
  | (k', v') :: rest => if k' = k then (k, f v') :: rest else (k', v') :: assocModify rest k f

/-- The enumerable own properties of an array value: index keys plus nothing else
(`length` is a non-enumerable property and does not spread). -/
def arrFields (xs : List JVal) : List (String × JVal) :=
  xs.enum.map (fun p => (toString p.1, p.2))

/-- The indexed own properties of a primitive string (JS boxes strings on access). -/
def strFields (s : String) : List (String × JVal) :=
  s.data.enum.map (fun p => (toString p.1, JVal.str (String.mk [p.2])))

/-- The fields produced by spreading a value into an object literal (`{...v}`):
objects and arrays contribute their enumerable own properties, strings their
characters, and every other value nothing. -/
def jsFieldsOf (v : JVal) : List (String × JVal) :=
  match v with
  | .obj fs => fs
  | .arr xs => arrFields xs
  | .str s => strFields s
  | _ => []

/-- Spread semantics for a possibly-undefined value (`{...undefined}` is `{}`). -/
def jsFieldsOfOpt (v : Option JVal) : List (String × JVal) :=
  match v with
  | some w => jsFieldsOf w
  | none => []

/-- JS property access `v[k]` with a string key: `undefined` is `none`.
Arrays and strings expose `length` and their canonical index keys. -/
def jsGet (v : JVal) (k : String) : Option JVal :=
  match v with
  | .obj fs => assocGet fs k
  | .arr xs => if k = "length" then some (.num xs.length) else assocGet (arrFields xs) k
  | .str s => if k = "length" then some (.num s.length) else assocGet (strFields s) k
  | _ => none

/-- Property access defaulting `undefined` to JSON `null`. -/
def jsGetD (v : JVal) (k : String) : JVal :=
  (jsGet v k).getD .null

/-- The JS `in` operator on an object or array value (own properties only; both
kinds of value also expose no further prototype properties in this model). -/
def jsHas (v : JVal) (k : String) : Bool :=
  match v with
  | .obj fs => (assocGet fs k).isSome
  | .arr xs => k = "length" || (assocGet (arrFields xs) k).isSome
  | _ => false

/-- Whether a value is exactly JSON `null` (the JS `=== null` test). -/
def jsIsNull (v : JVal) : Bool :=
  match v with
  | .null => true
  | _ => false

/-- JS truthiness of a value. -/
def jsTruthy (v : JVal) : Bool :=
  match v with
  | .null => false
  | .bool b => b
  | .num n => n ≠ 0
  | .str s => s ≠ ""
  | .arr _ => true
  | .obj _ => true

/-- Truthiness of a possibly-undefined value (`undefined` is falsy). -/
def jsTruthyOpt (v : Option JVal) : Bool :=
  match v with
  | some w => jsTruthy w
  | none => false

/-- String coercion of a possibly-undefined value, as used inside template
literals for error messages. -/
def jsDisplay (v : Option JVal) : String :=
  match v with
  | none => "undefined"
  | some .null => "null"
  | some (.bool true) => "true"
  | some (.bool false) => "false"
  | some (.num n) => toString n
  | some (.str s) => s
  | some (.arr _) => ""
  | some (.obj _) => "[object Object]"

/-- Plain (non-negative-safe) array indexing `xs[n]` with an integer index:
negative or out-of-range indices read `undefined`. -/
def arrGetI (xs : List JVal) (n : Int) : Option JVal :=
  if n < 0 then none else xs.get? n.toNat

/-- JS `parseInt` as used on path segments: skip leading whitespace, read an
optional sign and then leading decimal digits; `none` models `NaN`. -/
def jsParseInt (s : String) : Option Int :=
  let cs := s.data.dropWhile (fun c => c = ' ' ∨ c = '\t' ∨ c = '\n' ∨ c = '\r')
  let signed : Int × List Char :=
    match cs with
    | '-' :: r => (-1, r)
    | '+' :: r => (1, r)
    | _ => (1, cs)
  let ds := signed.2.takeWhile Char.isDigit
  if ds.isEmpty then none
  else some (signed.1 * (ds.foldl (fun n c => 10 * n + ((c.toNat : Int) - 48)) (0 : Int)))

/-- Split a character list at every delimiter character, keeping empty segments
(the behaviour of `String.prototype.split` with a single-character regex). -/
def splitCharsAux (p : Char → Bool) : List Char → List (List Char)
  | [] => [[]]
  | c :: rest =>
    let r := splitCharsAux p rest
    if p c then [] :: r
    else
      match r with
      | seg :: segs => (c :: seg) :: segs
      | [] => [[c]]

/-- Split a string on a character predicate, keeping empty segments. -/
def splitOnPred (s : String) (p : Char → Bool) : List String :=
  (splitCharsAux p s.data).map (fun cs => String.mk cs)

/-- Strip a leading `$.` or `$` from a path, as `navigateToPath` does. -/
def cleanOf (path : String) : String :=
  match path.data with
  | '$' :: '.' :: rest => String.mk rest
  | '$' :: rest => String.mk rest
  | _ => path

/-- The segment list of a path: split the cleaned path on `.`, `[` and `]` and
drop empty segments. -/
def partsOf (path : String) : List String :=
  (splitOnPred (cleanOf path) (fun c => c = '.' ∨ c = '[' ∨ c = ']')).filter (fun p => p ≠ "")

/-- One step of the descent `navigateToPath` performs, also used as the `key`
field of its result: a numeric array index or an object field name. -/
inductive Step where
  | idx : Int → Step
  | fld : String → Step

/-- The result of `navigateToPath`: `whole` is the `parent = null` family of
returns (empty or `$` paths), `at_` carries the descent steps to the parent
node in place of the JS reference to it, and `thrown` models the `TypeError`
raised by applying `in` to a non-object. -/
inductive NavResult where
  | whole : Bool → Option JVal → NavResult
  | at_ : List Step → Step → Bool → Option JVal → NavResult
  | thrown : NavResult

/-- The segment loop of `navigateToPath`. `cur` is the JS `current` variable,
`acc` the descent steps taken so far (the position of `parent` at each turn). -/
def navCore (cur : Option JVal) : List String → List Step → NavResult
  | [], _ => .whole false none
  | [p], acc =>
    match jsParseInt p, cur with
    | some n, some (.arr xs) =>
      .at_ acc (.idx n) (decide (0 ≤ n) && decide (n < (xs.length : Int))) (arrGetI xs n)
    | _, _ =>
      match cur with
      | none => .at_ acc (.fld p) false none
      | some .null => .at_ acc (.fld p) false none
      | some (.obj fs) => .at_ acc (.fld p) (jsHas (.obj fs) p) (jsGet (.obj fs) p)
      | some (.arr xs) => .at_ acc (.fld p) (jsHas (.arr xs) p) (jsGet (.arr xs) p)
      | some _ => .thrown
  | p :: q :: rest, acc =>
    let stepNext : Step × Option JVal :=
      match jsParseInt p, cur with
      | some n, some (.arr xs) => (.idx n, arrGetI xs n)
      | _, _ => (.fld p, cur.bind (fun v => jsGet v p))
    match stepNext.2 with
    | none => .at_ acc stepNext.1 false none
    | some v =>
      if jsIsNull v then .at_ acc stepNext.1 false none
      else navCore (some v) (q :: rest) (acc ++ [stepNext.1])

/-- `navigateToPath` from `DashboardBuilderTools`: resolve a dotted/bracketed
path against a value, reporting the parent location, final key, existence and
value, or the `TypeError` the JS code raises on primitive `in` tests. -/
def navigateToPath (obj : JVal) (path : String) : NavResult :=
  if path = "" ∨ path = "$" then .whole true (some obj)
  else if cleanOf path = "" then .whole true (some obj)
  else
    match partsOf path with
    | [] => .whole false none
    | p :: rest => navCore (some obj) (p :: rest) []

/-- The assignment `parent[key] = value` performed by `setValueAtPath`, as seen
through JSON: in-range array-index writes update the element, out-of-range
non-negative writes pad with `null` (the JSON image of array holes), object
writes replace or append the field, and writes to primitives, to negative
indices or to JSON-invisible array properties change nothing. -/
def jsAssign (cur : JVal) (key : Step) (v : JVal) : JVal :=
  match cur, key with
  | .arr xs, .idx n =>
    if n < 0 then .arr xs
    else if n.toNat < xs.length then .arr (xs.set n.toNat v)
    else .arr (xs ++ List.replicate (n.toNat - xs.length) .null ++ [v])
  | .arr xs, .fld _ => .arr xs
  | .obj fs, .fld k => .obj (assocSet fs k v)
  | .obj fs, .idx n => .obj (assocSet fs (toString n) v)
  | other, _ => other

/-- Rebuild a value after mutating the node reached by the recorded descent
steps: the functional image of `parent[key] = value` on the deep clone. A
descent step that passed through a primitive (whose "children" are fresh
boxed values in JS) loses the write, as the original does. -/
def setAtSteps (cur : JVal) : List Step → Step → JVal → JVal
  | [], key, v => jsAssign cur key v
  | .fld p :: rest, key, v =>
    match cur with
    | .obj fs => .obj (assocModify fs p (fun child => setAtSteps child rest key v))
    | other => other
  | .idx n :: rest, key, v =>
    match cur with
    | .arr xs =>
      if h : 0 ≤ n ∧ n.toNat < xs.length then
        .arr (xs.set n.toNat (setAtSteps (xs.get ⟨n.toNat, h.2⟩) rest key v))
      else .arr xs
    | other => other

/-- `setValueAtPath` from `DashboardBuilderTools`: deep-clone, navigate to the
parent of the final segment and assign. An `.error` result models the
propagated `TypeError` of `navigateToPath`. -/
def setValueAtPath (obj : JVal) (path : String) (v : JVal) : Except Unit JVal :=
  if path = "" ∨ path = "$" then .ok v
  else
    match navigateToPath obj path with
    | .thrown => .error ()
    | .whole _ _ => .ok v
    | .at_ steps key _ _ => .ok (setAtSteps obj steps key v)

/-! ## Grid geometry model

The repository's `gridUtils` module is imported by `DashboardBuilderTools` but
its source is not part of the repository snapshot; the definitions below are
modelled from the specification's description of it. -/

/-- Whitespace used when tokenizing a row-template string. -/
def isSpaceChar (c : Char) : Bool :=
  c = ' ' ∨ c = '\t' ∨ c = '\n' ∨ c = '\r'

/-- Tokenize one row-template string on whitespace, dropping empty tokens. -/
def tokenizeRow (row : String) : List String :=
  (splitOnPred row isSpaceChar).filter (fun t => t ≠ "")

/-- Deduplicate a list of names, preserving first-seen order. -/
def dedupFirst (l : List String) : List String :=
  l.foldl (fun acc a => if a ∈ acc then acc else acc ++ [a]) []

/-- Modelled from the spec: `extractGridAreas` from the missing `gridUtils`
module — tokenize each row string on whitespace, drop the `.` placeholder
token, deduplicate, preserve first-seen order. -/
def extractGridAreas (templateAreas : List String) : List String :=
  dedupFirst (((templateAreas.map tokenizeRow).flatten).filter (fun t => t ≠ "."))

/-- Modelled from the spec: `isValidGridArea` from the missing `gridUtils`
module — the area is in the extracted set. -/
def isValidGridArea (area : String) (templateAreas : List String) : Bool :=
  area ∈ extractGridAreas templateAreas

/-- The grid section of the dashboard state. -/
structure GridConfig where
  columns : String
  rows : String
  gap : String
  templateAreas : List String

/-- The dashboard state: the grid, the `components` map in JS key order, the
dashboard metadata, and the optional schema snapshot and GraphQL endpoint. -/
structure DashboardState where
  grid : GridConfig
  components : List (String × JVal)
  metadata : JVal
  postgresSchema : Option JVal := none
  graphqlEndpoint : Option String := none

/-- Modelled from the spec: `isGridAreaOccupied` from the missing `gridUtils`
module — true if any component's `gridArea` equals the area (JS `===`, so only
string-valued `gridArea` fields can match). -/
def isGridAreaOccupied (area : String) (st : DashboardState) : Bool :=
  st.components.any (fun kv =>
    match jsGet kv.2 "gridArea" with
    | some (.str g) => g = area
    | _ => false)

/-- The parameter object of `set_grid_layout`. -/
structure LayoutParams where
  columns : String
  rows : String
  gap : String
  templateAreas : List String

/-- The `{valid, errors}` result of `validateGridLayout`. -/
structure ValidationResult where
  valid : Bool
  errors : List String

/-- Positions `(row, column)` of a token in the tokenized grid. -/
def tokenCells (rows : List (List String)) (a : String) : List (Nat × Nat) :=
  (rows.enum.map (fun r =>
    (r.2.enum.filter (fun c => c.2 = a)).map (fun c => (r.1, c.1)))).flatten

/-- Whether the cells of one area name fill the bounding box of its occurrences
(a single rectangular block, as grid-template-areas requires). -/
def areaIsRect (rows : List (List String)) (a : String) : Bool :=
  match tokenCells rows a with
  | [] => true
  | c :: cs =>
    let rs := (c :: cs).map (fun p => p.1)
    let ks := (c :: cs).map (fun p => p.2)
    let r0 := rs.foldl min c.1
    let r1 := rs.foldl max c.1
    let k0 := ks.foldl min c.2
    let k1 := ks.foldl max c.2
    (c :: cs).length = (r1 - r0 + 1) * (k1 - k0 + 1)

/-- Modelled from the spec: `validateGridLayout` from the missing `gridUtils`
module — columns/rows/gap must be non-empty dimension strings, `templateAreas`
non-empty, all rows the same token count, and every repeated area name must
occupy a single rectangular block. Total: it never throws, it reports errors. -/
def validateGridLayout (p : LayoutParams) : ValidationResult :=
  let rows := p.templateAreas.map tokenizeRow
  let errs :=
    (if p.columns.data.dropWhile isSpaceChar = [] then ["columns must be a non-empty dimension string"] else []) ++
    (if p.rows.data.dropWhile isSpaceChar = [] then ["rows must be a non-empty dimension string"] else []) ++
    (if p.gap.data.dropWhile isSpaceChar = [] then ["gap must be a non-empty dimension string"] else []) ++
    (if p.templateAreas.isEmpty then ["templateAreas must be non-empty"] else []) ++
    (match rows with
     | [] => []
     | r :: rs => if rs.all (fun row => row.length = r.length) then []
                  else ["rows have differing token counts"]) ++
    ((extractGridAreas p.templateAreas).filter (fun a => ¬ areaIsRect rows a)).map
      (fun a => "area " ++ a ++ " does not form a rectangular block")
  { valid := errs.isEmpty, errors := errs }

/-- Modelled from the spec: `getGridStats` from the missing `gridUtils` module
— derived `{totalAreas, usedAreas, availableAreas, availableAreaNames}` counts
for tool responses. -/
def getGridStats (st : DashboardState) : JVal :=
  let areas := extractGridAreas st.grid.templateAreas
  let avail := areas.filter (fun a => ¬ isGridAreaOccupied a st)
  .obj [("totalAreas", .num areas.length),
        ("usedAreas", .num (areas.length - avail.length)),
        ("availableAreas", .num avail.length),
        ("availableAreaNames", .arr (avail.map .str))]

/-! ## Dashboard tool API -/

/-- The uniform `{success, message?, data?, error?}` result of every tool. -/
structure ToolResponse where
  success : Bool
  message : Option String := none
  error : Option String := none
  data : Option JVal := none

/-- Fold a list of overriding fields onto a base field list, as an object
literal `{...base, k1: v1, k2: v2}` does. -/
def assocSetAll (fs : List (String × JVal)) (ov : List (String × JVal)) :
    List (String × JVal) :=
  ov.foldl (fun a kv => assocSet a kv.1 kv.2) fs

/-- Apply literal-field updates where a `none` value is a set-to-`undefined`
(JSON-invisible, modelled as removal). -/
def applyChanges (fs : List (String × JVal)) (chs : List (String × Option JVal)) :
    List (String × JVal) :=
  chs.foldl (fun a kv =>
    match kv.2 with
    | some v => assocSet a kv.1 v
    | none => assocRemove a kv.1) fs

/-- The quote-stripping normalization `set_grid_layout` applies to each
row-template string: drop one leading and one trailing quote, then trim. -/
def normalizeArea (s : String) : String :=
  let quote := fun (c : Char) => c = '"' ∨ c = Char.ofNat 39
  let cs := s.data
  let cs1 := match cs with
             | c :: rest => if quote c then rest else cs
             | [] => []
  let cs2 := match cs1.getLast? with
             | some c => if quote c then cs1.dropLast else cs1
             | none => cs1
  String.mk ((cs2.dropWhile isSpaceChar).reverse.dropWhile isSpaceChar).reverse

/-- Whether a component would be orphaned by a layout with the given areas:
`!newAreas.includes(c.gridArea)`. -/
def componentOrphaned (c : JVal) (areas : List String) : Bool :=
  ¬ areas.any (fun a =>
    match jsGet c "gridArea" with
    | some (.str g) => g = a
    | _ => false)

/-- The orphan-rejection error message of `set_grid_layout`. -/
def orphanErrorMsg (orphans : List JVal) (newAreas : List String) : String :=
  "Cannot update grid layout: " ++ toString orphans.length ++
  " component(s) would be orphaned. " ++
  "Components in areas: " ++
  String.intercalate ", " (orphans.map (fun c => jsDisplay (jsGet c "gridArea"))) ++
  " " ++ "which are not in new grid areas: " ++ String.intercalate ", " newAreas

/-- `set_grid_layout`: normalize the template areas, validate the layout,
reject if any existing component would be orphaned, otherwise replace `grid`. -/
def set_grid_layout (st : DashboardState) (params : LayoutParams) :
    ToolResponse × DashboardState :=
  let norm : LayoutParams :=
    { params with templateAreas := params.templateAreas.map normalizeArea }
  let validation := validateGridLayout norm
  if ¬ validation.valid then
    ({ success := false,
       error := some ("Invalid grid layout: " ++ String.intercalate ", " validation.errors) }, st)
  else
    let newAreas := extractGridAreas norm.templateAreas
    let orphaned := (st.components.map (fun kv => kv.2)).filter
      (fun c => componentOrphaned c newAreas)
    if orphaned.isEmpty then
      let st' := { st with grid :=
        { columns := norm.columns, rows := norm.rows, gap := norm.gap,
          templateAreas := norm.templateAreas } }
      ({ success := true,
         message := some "Grid layout configured successfully",
         data := some (.obj [("columns", .str norm.columns), ("rows", .str norm.rows),
           ("gap", .str norm.gap), ("templateAreas", .arr (norm.templateAreas.map .str)),
           ("gridAreas", .arr (newAreas.map .str)),
           ("stats", getGridStats { st with grid :=
             { columns := norm.columns, rows := norm.rows, gap := norm.gap,
               templateAreas := norm.templateAreas } })]) }, st')
    else
      ({ success := false, error := some (orphanErrorMsg orphaned newAreas) }, st)

/-- The parameter object of `create_component` (`type` is a Lean keyword, so
the field is `type_`; optional parameters absent in the call are `none`). -/
structure CreateParams where
  id : String
  type_ : String
  gridArea : String
  title : String
  description : Option String := none
  dataConfig : JVal
  data : Option JVal := none
  options : Option JVal := none
  style : Option JVal := none

/-- The component object `create_component` builds: `data` defaults to `{}`
when the parameter is falsy, metadata starts at `fetchStatus: 'idle'` with
`createdAt` stamped, and `undefined`-valued optional fields are JSON-absent. -/
def mkComponentJson (p : CreateParams) (now : String) : JVal :=
  .obj ([("id", .str p.id), ("type", .str p.type_), ("gridArea", .str p.gridArea),
         ("title", .str p.title)]
    ++ (match p.description with | some d => [("description", JVal.str d)] | none => [])
    ++ [("dataConfig", p.dataConfig),
        ("data", match p.data with
                 | some d => if jsTruthy d then d else .obj []
                 | none => .obj [])]
    ++ (match p.options with | some o => [("options", o)] | none => [])
    ++ (match p.style with | some sv => [("style", sv)] | none => [])
    ++ [("metadata", .obj [("createdAt", .str now), ("fetchStatus", .str "idle")])])

/-- `create_component`: reject a duplicate id, an unknown grid area or an
occupied grid area before mutating; otherwise insert the new component. -/
def create_component (st : DashboardState) (now : String) (p : CreateParams) :
    ToolResponse × DashboardState :=
  match assocGet st.components p.id with
  | some _ =>
    ({ success := false,
       error := some ("Component with ID \"" ++ p.id ++
         "\" already exists. Use update_component to modify it.") }, st)
  | none =>
    if ¬ isValidGridArea p.gridArea st.grid.templateAreas then
      ({ success := false,
         error := some ("Grid area \"" ++ p.gridArea ++
           "\" not found in template areas. Available areas: " ++
           String.intercalate ", " (extractGridAreas st.grid.templateAreas)) }, st)
    else if isGridAreaOccupied p.gridArea st then
      let existing := (st.components.map (fun kv => kv.2)).find? (fun c =>
        match jsGet c "gridArea" with
        | some (.str g) => g = p.gridArea
        | _ => false)
      ({ success := false,
         error := some ("Grid area \"" ++ p.gridArea ++
           "\" is already occupied by component \"" ++
           jsDisplay (existing.bind (fun c => jsGet c "id")) ++
           "\". Remove it first or choose a different grid area.") }, st)
    else
      let comp := mkComponentJson p now
      let st' := { st with components := assocSet st.components p.id comp }
      let areas := extractGridAreas st'.grid.templateAreas
      let avail := areas.filter (fun a => ¬ isGridAreaOccupied a st')
      ({ success := true,
         message := some ("Component \"" ++ p.id ++
           "\" created successfully in grid area \"" ++ p.gridArea ++ "\""),
         data := some (.obj [("component", comp), ("gridStats", getGridStats st'),
           ("suggestion", .str (if avail.length > 0 then
              toString avail.length ++ " grid area(s) still available: " ++
                String.intercalate ", " avail
            else "All grid areas are now occupied"))]) }, st')

/-- The message stored when the propagated `TypeError` of `setValueAtPath` is
caught by `update_component` (`error.message`; the exact engine wording is not
modelled). -/
def typeErrorMessage : String :=
  "Cannot use the in operator to search a non-object"

/-- `update_component`: with a truthy `path`, a path-addressed copy-on-write
update (whose `TypeError` is caught into a failure response); otherwise a
shallow merge of `updates` that re-pins `id` and stamps `metadata.updatedAt`. -/
def update_component (st : DashboardState) (now : String) (id : String)
    (path : Option String) (updates : JVal) : ToolResponse × DashboardState :=
  match assocGet st.components id with
  | none => ({ success := false, error := some ("Component \"" ++ id ++ "\" not found") }, st)
  | some comp =>
    let pathTruthy : Bool := match path with
                      | some p => p ≠ ""
                      | none => false
    if pathTruthy then
      match setValueAtPath comp ((path.getD "")) updates with
      | .error _ => ({ success := false, error := some typeErrorMessage }, st)
      | .ok upd =>
        ({ success := true,
           message := some ("Component \"" ++ id ++ "\" updated successfully"),
           data := some upd },
         { st with components := assocSet st.components id upd })
    else
      let merged : JVal := .obj (assocSetAll
        (assocSetAll (jsFieldsOf comp) (jsFieldsOf updates))
        [("id", .str id),
         ("metadata", .obj (assocSet (jsFieldsOfOpt (jsGet comp "metadata"))
            "updatedAt" (.str now)))])
      ({ success := true,
         message := some ("Component \"" ++ id ++ "\" updated successfully"),
         data := some merged },
       { st with components := assocSet st.components id merged })

/-- `remove_component`: delete an existing component from the map. -/
def remove_component (st : DashboardState) (id : String) :
    ToolResponse × DashboardState :=
  match assocGet st.components id with
  | none => ({ success := false, error := some ("Component \"" ++ id ++ "\" not found") }, st)
  | some _ =>
    ({ success := true, message := some ("Component \"" ++ id ++ "\" removed successfully") },
     { st with components := assocRemove st.components id })

/-! ## Data fetcher

`DataFetcher` from `dataFetcher.ts`. The network is an oracle mapping an
endpoint and a JSON request body to an HTTP outcome; the Handlebars and alasql
engines (external libraries) are oracles that either produce a transformed
value or fail with a message. A `.error` result of a fetch models a thrown
(rejected) error with the given message. -/

/-- Outcome of one `fetch` call: a transport-level rejection, or a response
with its `ok` flag, `statusText` and parsed JSON body. -/
inductive HttpResult where
  | transportError : String → HttpResult
  | response : Bool → String → JVal → HttpResult

/-- The runtime environment of the fetcher: whether `fetch` exists, and the
network oracle. -/
structure NetEnv where
  fetchAvailable : Bool := true
  send : String → JVal → HttpResult

/-- The external template and row-query engines. `renderTemplate` abstracts
Handlebars compile + render + the JSON re-parse of the rendered string;
`runQuery` abstracts `alasql(query, [rows, params])`. -/
structure Engines where
  renderTemplate : JVal → JVal → Except String JVal
  runQuery : JVal → JVal → Option JVal → Except String JVal

/-- The endpoint configuration passed to the `DataFetcher` constructor. -/
structure FetcherConfig where
  mcpPostgresEndpoint : Option String := none
  graphqlEndpoint : Option String := none

/-- The private cache map: component id to `{data, timestamp}`. -/
def FetcherState : Type := List (String × JVal × Int)

/-- The soft error value returned in place of data for source-level failures. -/
def softError (v : JVal) : JVal :=
  .obj [("error", v)]

/-- A JSON request body `{k1: v1, ...}` whose `undefined` fields are dropped,
as `JSON.stringify` does. -/
def reqBody (pairs : List (String × Option JVal)) : JVal :=
  .obj (pairs.filterMap (fun kv => kv.2.map (fun v => (kv.1, v))))

/-- `fetchFromPostgreSQL`: an unconfigured endpoint, a missing `fetch`, a
transport error or a non-2xx response all yield a soft error value; a 2xx
response yields `result.data || result`. -/
def fetchFromPostgreSQL (cfg : FetcherConfig) (env : NetEnv) (source : JVal) : JVal :=
  match cfg.mcpPostgresEndpoint with
  | none => softError (.str "PostgreSQL endpoint not configured")
  | some ep =>
    if ¬ env.fetchAvailable then softError (.str "fetch not available")
    else
      match env.send ep (reqBody [("query", jsGet source "query"),
        ("params", jsGet source "params"), ("schema", jsGet source "schema")]) with
      | .transportError m => softError (.str m)
      | .response false statusText _ => softError (.str statusText)
      | .response true _ body =>
        match jsGet body "data" with
        | some d => if jsTruthy d then d else body
        | none => body

/-- `fetchFromGraphQL`: the source endpoint (when truthy) or the configured
one; failures are soft errors, and a truthy `errors` field of a 2xx response
is surfaced as the soft error value; otherwise `result.data` is returned. -/
def fetchFromGraphQL (cfg : FetcherConfig) (env : NetEnv) (source : JVal) : JVal :=
  let ep := match jsGet source "endpoint" with
            | some (.str e) => if e ≠ "" then some e else cfg.graphqlEndpoint
            | _ => cfg.graphqlEndpoint
  match ep with
  | none => softError (.str "GraphQL endpoint not configured")
  | some e =>
    if ¬ env.fetchAvailable then softError (.str "fetch not available")
    else
      match env.send e (reqBody [("query", jsGet source "query"),
        ("variables", jsGet source "variables")]) with
      | .transportError m => softError (.str m)
      | .response false statusText _ => softError (.str statusText)
      | .response true _ body =>
        match jsGet body "errors" with
        | some errs => if jsTruthy errs then softError errs else jsGetD body "data"
        | none => jsGetD body "data"

/-- The message of the `TypeError` raised by reading a property of
`undefined` (exact engine wording not modelled). -/
def undefinedReadMessage : String :=
  "Cannot read properties of undefined"

/-- `fetchFromSource`: dispatch on `source.type`; an unknown type (or an
absent source object) throws rather than producing a soft error. -/
def fetchFromSource (cfg : FetcherConfig) (env : NetEnv) (source : Option JVal) :
    Except String JVal :=
  match source with
  | none => .error undefinedReadMessage
  | some s =>
    match jsGet s "type" with
    | some (.str "postgresql") => .ok (fetchFromPostgreSQL cfg env s)
    | some (.str "graphql") => .ok (fetchFromGraphQL cfg env s)
    | some (.str "static") => .ok (jsGetD s "data")
    | t => .error ("Unknown data source type: " ++ jsDisplay t)

/-- `applyHandlebarsTemplate`: build the context `{data, ...context}` and run
the template engine; an engine failure is re-thrown with the prefixed
message. -/
def applyHandlebarsTemplate (eng : Engines) (data : JVal) (tcfg : JVal) :
    Except String JVal :=
  let ctx : JVal := .obj (assocSetAll [("data", data)]
    (jsFieldsOfOpt (jsGet tcfg "context")))
  match eng.renderTemplate (jsGetD tcfg "template") ctx with
  | .ok v => .ok v
  | .error e => .error ("Handlebars template failed: " ++ e)

/-- `applyAlaSQLTransform`: coerce the data to a row array and run the query
engine; an engine failure is re-thrown with the prefixed message. -/
def applyAlaSQLTransform (eng : Engines) (data : JVal) (tr : JVal) :
    Except String JVal :=
  let dataArray : JVal := match data with
                          | .arr xs => .arr xs
                          | v => .arr [v]
  match eng.runQuery (jsGetD tr "query") dataArray (jsGet tr "params") with
  | .ok v => .ok v
  | .error e => .error ("AlaSQL transform failed: " ++ e)

/-- Cache lookup: the stored `{data, timestamp}` entry for a component id. -/
def cacheLookup (fst : FetcherState) (id : String) : Option (JVal × Int) :=
  assocGet fst id

/-- Drop a cache entry (`Map.delete`). -/
def cacheDelete (fst : FetcherState) (id : String) : FetcherState :=
  assocRemove fst id

/-- Store a cache entry with the current timestamp (`Map.set`). -/
def cacheSet (fst : FetcherState) (id : String) (d : JVal) (now : Int) : FetcherState :=
  assocSet fst id (d, now)

/-- `getFromCache`: a hit while `now - timestamp` is at most the ttl (where a
falsy ttl — absent, non-numeric or `0` — falls back to 60000 ms); an expired
entry is deleted and reported as a miss. -/
def getFromCache (fst : FetcherState) (now : Int) (id : String) (ttl : Option JVal) :
    Option JVal × FetcherState :=
  match cacheLookup fst id with
  | none => (none, fst)
  | some (d, ts) =>
    let maxAge : Int := match ttl with
                        | some (.num t) => if t ≠ 0 then t else 60000
                        | _ => 60000
    if now - ts > maxAge then (none, cacheDelete fst id) else (some d, fst)

/-- `fetchData`: cache check, source fetch, optional Handlebars then alasql
transforms, cache store. Transform failures (and unknown source types) are
thrown; source-level failures surface as soft error values in an `.ok`
result. A `null` cached value fails the JS `cached !== null` test and is
refetched. -/
def fetchData (cfg : FetcherConfig) (env : NetEnv) (eng : Engines)
    (fst : FetcherState) (now : Int) (id : String) (config : Option JVal) :
    Except String JVal × FetcherState :=
  match config with
  | none => (.error undefinedReadMessage, fst)
  | some conf =>
    let cacheCfg := jsGet conf "cache"
    let cacheEnabled := jsTruthyOpt (cacheCfg.bind (fun c => jsGet c "enabled"))
    let checked := if cacheEnabled then
                     getFromCache fst now id (cacheCfg.bind (fun c => jsGet c "ttl"))
                   else (none, fst)
    let hit : Option JVal := match checked.1 with
                             | some d => if jsIsNull d then none else some d
                             | none => none
    match hit with
    | some d => (.ok d, checked.2)
    | none =>
      let fst1 := checked.2
      match fetchFromSource cfg env (jsGet conf "source") with
      | .error e => (.error e, fst1)
      | .ok raw0 =>
        let step1 := match jsGet conf "handlebarsTemplate" with
                     | some h => if jsTruthy h then applyHandlebarsTemplate eng raw0 h
                                 else .ok raw0
                     | none => .ok raw0
        match step1 with
        | .error e => (.error e, fst1)
        | .ok raw1 =>
          let step2 := match jsGet conf "alasqlTransform" with
                       | some tr => if jsTruthy tr then applyAlaSQLTransform eng raw1 tr
                                    else .ok raw1
                       | none => .ok raw1
          match step2 with
          | .error e => (.error e, fst1)
          | .ok raw2 =>
            ((.ok raw2), if cacheEnabled then cacheSet fst1 id raw2 now else fst1)

/-- The endpoints `createDashboardTools` constructs its `DataFetcher` with. -/
def toolsFetcherConfig : FetcherConfig :=
  { mcpPostgresEndpoint := some "/api/mcp/postgres",
    graphqlEndpoint := some "/graphql" }

/-! ## Fetch-driven tools -/

/-- The state surgery shared by the fetch tools:
`{...components[id], top..., metadata: {...components[id].metadata, meta...}}`
written back into the component map, where a `none` change value is a
set-to-`undefined` (JSON-absent). -/
def updateComponentMeta (comps : List (String × JVal)) (id : String)
    (topChanges : List (String × Option JVal)) (metaChanges : List (String × Option JVal)) :
    List (String × JVal) :=
  let old := assocGet comps id
  let oldMeta := old.bind (fun c => jsGet c "metadata")
  let newMeta : JVal := .obj (applyChanges (jsFieldsOfOpt oldMeta) metaChanges)
  let newComp : JVal := .obj (applyChanges (jsFieldsOfOpt old)
    (topChanges ++ [("metadata", some newMeta)]))
  assocSet comps id newComp

/-- `fetch_component_data`: mark the component loading, run the fetcher with
its `dataConfig`, and either store the data with a success status or record
the error message with an error status, leaving prior `data` untouched. -/
def fetch_component_data (cfg : FetcherConfig) (env : NetEnv) (eng : Engines)
    (st : DashboardState) (fst : FetcherState) (nowMs : Int) (nowIso : String)
    (id : String) : ToolResponse × DashboardState × FetcherState :=
  match assocGet st.components id with
  | none =>
    ({ success := false, error := some ("Component \"" ++ id ++ "\" not found") }, st, fst)
  | some comp =>
    let st1 := { st with components :=
      updateComponentMeta st.components id [] [("fetchStatus", some (.str "loading"))] }
    match fetchData cfg env eng fst nowMs id (jsGet comp "dataConfig") with
    | (.ok d, fst') =>
      let st2 := { st1 with components :=
        (updateComponentMeta st1.components id [("data", some d)]
          [("fetchStatus", some (.str "success")), ("lastFetchedAt", some (.str nowIso)),
           ("error", none)]) }
      ({ success := true,
         message := some ("Data fetched successfully for component \"" ++ id ++ "\""),
         data := some d }, st2, fst')
    | (.error e, fst') =>
      let st2 := { st1 with components :=
        (updateComponentMeta st1.components id []
          [("fetchStatus", some (.str "error")), ("error", some (.str e))]) }
      ({ success := false, error := some e }, st2, fst')

/-- One settled result of the `refresh_all_components` fan-out. -/
def refreshApply (comps : List (String × JVal)) (nowIso : String)
    (idres : String × Except String JVal) : List (String × JVal) :=
  match idres.2 with
  | .ok d =>
    updateComponentMeta comps idres.1 [("data", some d)]
      [("fetchStatus", some (.str "success")), ("lastFetchedAt", some (.str nowIso)),
       ("error", none)]
  | .error e =>
    updateComponentMeta comps idres.1 []
      [("fetchStatus", some (.str "error")),
       ("error", some (.str (if e ≠ "" then e else "Unknown error")))]

/-- `refresh_all_components`: fetch every component (the concurrent fan-out is
sequentialized here, which is observationally equivalent since the per-id
cache entries and per-id state updates of distinct component ids commute),
apply each settled outcome independently, and report success with the
refreshed count regardless of per-component failures. -/
def refresh_all_components (cfg : FetcherConfig) (env : NetEnv) (eng : Engines)
    (st : DashboardState) (fst : FetcherState) (nowMs : Int) (nowIso : String) :
    ToolResponse × DashboardState × FetcherState :=
  let ids := st.components.map (fun kv => kv.1)
  let fan := ids.foldl (fun (acc : List (String × Except String JVal) × FetcherState) id =>
    let r := fetchData cfg env eng acc.2 nowMs id
      ((assocGet st.components id).bind (fun c => jsGet c "dataConfig"))
    (acc.1 ++ [(id, r.1)], r.2)) ([], fst)
  let comps' := fan.1.foldl (fun cs idres => refreshApply cs nowIso idres) st.components
  ({ success := true,
     message := some ("Refreshed " ++ toString ids.length ++ " components"),
     data := some (.obj [("refreshedCount", .num ids.length)]) },
   { st with components := comps' }, fan.2)

/-! ## Derived observations and invariants -/

/-- The `gridArea` of a component when it is a string (the only case the JS
`===` comparisons against area tokens can match). -/
def areaOf (c : JVal) : Option String :=
  match jsGet c "gridArea" with
  | some (.str a) => some a
  | _ => none

/-- The multiset of string-valued `gridArea`s of the components, in map order. -/
def areaList (st : DashboardState) : List String :=
  st.components.filterMap (fun kv => areaOf kv.2)

/-- The spec's placement invariant: at most one component whose `gridArea`
equals any given area token. -/
def atMostOnePerArea (st : DashboardState) : Prop :=
  ∀ a : String, (areaList st).count a ≤ 1

/-- The invariant is exactly freedom from duplicates in the area list. -/
theorem atMostOnePerArea_iff_nodup (st : DashboardState) :
    atMostOnePerArea st ↔ (areaList st).Nodup := by
  rw [List.nodup_iff_count_le_one]
  exact Iff.rfl

/-- A metadata field of a stored component. -/
def compMeta (st : DashboardState) (id k : String) : Option JVal :=
  (assocGet st.components id).bind (fun c => (jsGet c "metadata").bind (fun m => jsGet m k))

/-- The `data` field of a stored component. -/
def compData (st : DashboardState) (id : String) : Option JVal :=
  (assocGet st.components id).bind (fun c => jsGet c "data")

/-! ## Association-list lemmas -/

theorem assocGet_assocSet {β : Type} (fs : List (String × β)) (k k' : String) (v : β) :
    assocGet (assocSet fs k v) k' = if k' = k then some v else assocGet fs k' := by
  induction fs with
  | nil =>
    by_cases h : k' = k
    · subst h; simp [assocSet, assocGet]
    · simp [assocSet, assocGet, h, Ne.symm h]
  | cons kv rest ih =>
    obtain ⟨a, b⟩ := kv
    by_cases ha : a = k
    · subst ha
      by_cases h : k' = a
      · subst h; simp [assocSet, assocGet]
      · simp [assocSet, assocGet, h, Ne.symm h]
    · by_cases h : k' = k
      · subst h
        by_cases hb : a = k'
        · exact absurd hb ha
        · simp [assocSet, assocGet, ha, hb, ih]
      · by_cases hb : a = k'
        · subst hb; simp [assocSet, assocGet, ha, ih, h]
        · simp [assocSet, assocGet, ha, hb, ih, h]

theorem assocGet_assocRemove {β : Type} (fs : List (String × β)) (k k' : String) :
    assocGet (assocRemove fs k) k' = if k' = k then none else assocGet fs k' := by
  induction fs with
  | nil =>
    by_cases h : k' = k <;> simp [assocRemove, assocGet, h]
  | cons kv rest ih =>
    obtain ⟨a, b⟩ := kv
    by_cases ha : a = k
    · subst ha
      by_cases h : k' = a
      · subst h; simp [assocRemove, assocGet, ih]
      · simp [assocRemove, assocGet, h, Ne.symm h, ih]
    · by_cases h : k' = k
      · subst h
        by_cases hb : a = k'
        · exact absurd hb ha
        · simp [assocRemove, assocGet, ha, hb, ih]
      · by_cases hb : a = k'
        · subst hb; simp [assocRemove, assocGet, ha, ih, h]
        · simp [assocRemove, assocGet, ha, hb, ih, h]

theorem assocGet_assocModify {β : Type} (fs : List (String × β)) (k k' : String)
    (f : β → β) :
    assocGet (assocModify fs k f) k' =
      if k' = k then (assocGet fs k).map f else assocGet fs k' := by
  induction fs with
  | nil =>
    by_cases h : k' = k <;> simp [assocModify, assocGet, h]
  | cons kv rest ih =>
    obtain ⟨a, b⟩ := kv
    by_cases ha : a = k
    · subst ha
      by_cases h : k' = a
      · subst h; simp [assocModify, assocGet]
      · simp [assocModify, assocGet, h, Ne.symm h]
    · by_cases h : k' = k
      · subst h
        by_cases hb : a = k'
        · exact absurd hb ha
        · simp [assocModify, assocGet, ha, hb, ih]
      · by_cases hb : a = k'
        · subst hb; simp [assocModify, assocGet, ha, ih, h]
        · simp [assocModify, assocGet, ha, hb, ih, h]

theorem jsGet_obj (fs : List (String × JVal)) (k : String) :
    jsGet (.obj fs) k = assocGet fs k := rfl

/-- Spread-then-lookup agrees with property access for every key other than
the non-enumerable `length`. -/
theorem assocGet_jsFieldsOf (v : JVal) (k : String) (hk : k ≠ "length") :
    assocGet (jsFieldsOf v) k = jsGet v k := by
  cases v <;> simp [jsFieldsOf, jsGet, hk, assocGet]

/-! ## Concrete scenario states -/

/-- The 2x2 demo grid `["header header", "sidebar main"]` with no components. -/
def demoGridState : DashboardState :=
  { grid := { columns := "1fr 1fr", rows := "auto 1fr", gap := "16px",
              templateAreas := ["header header", "sidebar main"] },
    components := [],
    metadata := .obj [("name", .str "New Dashboard")] }

/-- A creation request for a table component in the `main` area. -/
def mainTableParams (i : String) : CreateParams :=
  { id := i, type_ := "table", gridArea := "main", title := "Orders",
    dataConfig := .obj [("source", .obj [("type", .str "static"),
      ("data", .obj [("rows", .arr [])])])] }

/-- A fixed creation timestamp for the concrete scenarios. -/
def demoNow : String := "2024-01-01T00:00:00.000Z"

/-- Step 1 of the spec scenario: create `c1` in `main`. -/
def demoStep1 : ToolResponse × DashboardState :=
  create_component demoGridState demoNow (mainTableParams "c1")

/-- Step 2: attempt to create `c2` in the occupied `main`. -/
def demoStep2 : ToolResponse × DashboardState :=
  create_component demoStep1.2 demoNow (mainTableParams "c2")

/-- Step 3: remove `c1`. -/
def demoStep3 : ToolResponse × DashboardState :=
  remove_component demoStep2.2 "c1"

/-- Step 4: create `c2` in the now-free `main`. -/
def demoStep4 : ToolResponse × DashboardState :=
  create_component demoStep3.2 demoNow (mainTableParams "c2")

/-- Claim C7: on the 2x2 grid, creating `c1` in `main` succeeds with
`fetchStatus` `idle` and `createdAt` stamped; creating `c2` in `main` then
fails with the already-occupied error leaving the state untouched; after
removing `c1`, creating `c2` in `main` succeeds. -/
theorem create_occupy_remove_scenario :
    demoStep1.1.success = true ∧
    compMeta demoStep1.2 "c1" "fetchStatus" = some (.str "idle") ∧
    compMeta demoStep1.2 "c1" "createdAt" = some (.str demoNow) ∧
    demoStep2.1.success = false ∧
    demoStep2.1.error = some ("Grid area \"main\" is already occupied by component \"c1\". " ++
      "Remove it first or choose a different grid area.") ∧
    demoStep2.2 = demoStep1.2 ∧
    demoStep3.1.success = true ∧
    demoStep4.1.success = true ∧
    compMeta demoStep4.2 "c2" "fetchStatus" = some (.str "idle") := by
  exact ⟨rfl, rfl, rfl, rfl, rfl, rfl, rfl, rfl, rfl⟩

/-- Claim C10: `navigateToPath` is not total — navigating `$.a.b` into
`{a: 5}` reaches the primitive `5` at the final segment and the `in`
membership test raises a `TypeError` instead of returning `exists = false`;
`setValueAtPath` on the same input propagates the throw. -/
theorem navigateToPath_throws_on_primitive :
    navigateToPath (.obj [("a", .num 5)]) "$.a.b" = .thrown ∧
    setValueAtPath (.obj [("a", .num 5)]) "$.a.b" (.num 7) = .error () := by
  exact ⟨rfl, rfl⟩

/-! ## Refresh scenario (three components, one unreachable source) -/

/-- A network where every outbound call fails at the transport level (the
image of an unreachable endpoint). -/
def netDown (msg : String) : NetEnv :=
  { send := fun _ _ => .transportError msg }

/-- Engines that are never consulted in the transform-free scenarios. -/
def idleEngines : Engines :=
  { renderTemplate := fun _ _ => .error "not used",
    runQuery := fun _ _ _ => .error "not used" }

/-- A dashboard with two static-source components and one PostgreSQL-source
component, all with valid data configurations and `idle` status. -/
def threeCompState (d1 d2 : JVal) : DashboardState :=
  { grid := { columns := "1fr 1fr 1fr", rows := "auto", gap := "16px",
              templateAreas := ["a b c"] },
    components :=
      [("c1", .obj [("id", .str "c1"), ("type", .str "table"), ("gridArea", .str "a"),
         ("title", .str "A"),
         ("dataConfig", .obj [("source", .obj [("type", .str "static"), ("data", d1)])]),
         ("data", .obj []),
         ("metadata", .obj [("createdAt", .str "T0"), ("fetchStatus", .str "idle")])]),
       ("c2", .obj [("id", .str "c2"), ("type", .str "chart"), ("gridArea", .str "b"),
         ("title", .str "B"),
         ("dataConfig", .obj [("source", .obj [("type", .str "static"), ("data", d2)])]),
         ("data", .obj []),
         ("metadata", .obj [("createdAt", .str "T0"), ("fetchStatus", .str "idle")])]),
       ("c3", .obj [("id", .str "c3"), ("type", .str "stat-card"), ("gridArea", .str "c"),
         ("title", .str "C"),
         ("dataConfig", .obj [("source", .obj [("type", .str "postgresql"),
           ("query", .str "SELECT count(*) FROM orders")])]),
         ("data", .obj []),
         ("metadata", .obj [("createdAt", .str "T0"), ("fetchStatus", .str "idle")])])],
    metadata := .obj [] }

/-- Whether a component's `metadata.fetchStatus` is the given string. -/
def statusIs (c : JVal) (s : String) : Bool :=
  match (jsGet c "metadata").bind (fun m => jsGet m "fetchStatus") with
  | some (.str t) => t = s
  | _ => false

/-- How many components currently carry the given `fetchStatus`. -/
def statusCount (st : DashboardState) (s : String) : Nat :=
  (st.components.filter (fun kv => statusIs kv.2 s)).length

/-- The concrete refresh run with the PostgreSQL endpoint unreachable. -/
def refreshDownRun : ToolResponse × DashboardState × FetcherState :=
  refresh_all_components toolsFetcherConfig (netDown "Failed to fetch") idleEngines
    (threeCompState (.num 11) (.num 22)) [] 1000 "2024-01-01T01:00:00.000Z"

/-- Counterexample to claim C2: with three components and one unreachable
source endpoint, `refresh_all_components` leaves zero (not one) components
with `fetchStatus = 'error'` and all three `success`, because the transport
failure is swallowed by the fetcher into a soft error value and the promise
fulfills. -/
theorem refresh_unreachable_no_error_status :
    statusCount refreshDownRun.2.1 "error" = 0 ∧
    statusCount refreshDownRun.2.1 "success" = 3 ∧
    refreshDownRun.1.success = true := by
  exact ⟨rfl, rfl, rfl⟩

/-- The refresh run on the three-component dashboard with the network down,
parametric in the static payloads, the transport message and the timestamp. -/
def refreshDemo (d1 d2 : JVal) (msg : String) (eng : Engines) (iso : String) :
    ToolResponse × DashboardState × FetcherState :=
  refresh_all_components toolsFetcherConfig (netDown msg) eng (threeCompState d1 d2) [] 1000 iso

/-- Claim C2 (amended): with three valid components, one of whose source
endpoints is unreachable, `refresh_all_components` marks all three
`fetchStatus = 'success'`, stores the soft error value `{error: reason}` as
the unreachable component's data, and reports `{success: true}` with
`refreshedCount = 3`. -/
theorem refresh_unreachable_soft_error (d1 d2 : JVal) (msg iso : String) (eng : Engines) :
    (refreshDemo d1 d2 msg eng iso).1.success = true ∧
    (refreshDemo d1 d2 msg eng iso).1.message = some "Refreshed 3 components" ∧
    (refreshDemo d1 d2 msg eng iso).1.data = some (.obj [("refreshedCount", .num 3)]) ∧
    compMeta (refreshDemo d1 d2 msg eng iso).2.1 "c1" "fetchStatus" = some (.str "success") ∧
    compMeta (refreshDemo d1 d2 msg eng iso).2.1 "c2" "fetchStatus" = some (.str "success") ∧
    compMeta (refreshDemo d1 d2 msg eng iso).2.1 "c3" "fetchStatus" = some (.str "success") ∧
    compData (refreshDemo d1 d2 msg eng iso).2.1 "c1" = some d1 ∧
    compData (refreshDemo d1 d2 msg eng iso).2.1 "c2" = some d2 ∧
    compData (refreshDemo d1 d2 msg eng iso).2.1 "c3" = some (softError (.str msg)) := by
  refine ⟨rfl, ?_, rfl, rfl, rfl, rfl, rfl, rfl, rfl⟩
  show some ("Refreshed " ++ toString (3 : Nat) ++ " components") = _
  decide

/-! ## Cache behaviour -/

theorem cacheLookup_cacheDelete (fst : FetcherState) (id : String) :
    cacheLookup (cacheDelete fst id) id = none := by
  simp [cacheLookup, cacheDelete, assocGet_assocRemove]

/-- A caching data config over a static source with payload `2`. -/
def cachedDemoConfig (ttl : Option Int) : JVal :=
  .obj [("source", .obj [("type", .str "static"), ("data", .num 2)]),
        ("cache", .obj ([("enabled", .bool true)] ++
          (match ttl with
           | some t => [("ttl", JVal.num t)]
           | none => [])))]

/-- A network whose query endpoint answers with `{data: 9}`. -/
def demoNet : NetEnv :=
  { send := fun _ _ => .response true "OK" (.obj [("data", .num 9)]) }

/-- One cache entry: component `c` stored value `1` at time 1000. -/
def cacheEntry : FetcherState := [("c", (.num 1, 1000))]

/-- Counterexample to claim C5: with a specified `ttl = 0` and an entry of age
1000 ms, `fetchData` still returns the cached value verbatim with the entry
intact (the static source would have produced `2`), although
`now - timestamp ≤ ttl` fails — because `ttl || 60000` treats the specified
`0` as falsy and uses the 60000 ms default. -/
theorem fetchData_ttl_zero_cache_hit :
    fetchData toolsFetcherConfig demoNet idleEngines cacheEntry 2000 "c"
      (some (cachedDemoConfig (some 0))) = (.ok (.num 1), cacheEntry) ∧
    ¬ ((2000 : Int) - 1000 ≤ 0) := by
  exact ⟨rfl, by decide⟩

/-- Claim C5 (amended): with caching enabled and the stored entry's data not
null, `fetchData` answers from the cache, without consulting the source,
exactly while `now - timestamp ≤ ttl`, where the ttl defaults to 60000 ms
when unspecified and a specified ttl of `0` also falls back to 60000 (it is
falsy in `ttl || 60000`); an expired entry is deleted and the call behaves
exactly as a cache miss, re-invoking the source; a stored null fails the
`cached !== null` test in `fetchData`, so the source is re-invoked even
while the entry is fresh (and the entry is not deleted, only overwritten by
the re-fetch on success — shown here for a static source without
transforms); concretely, with ttl=1000 a repeat fetch 500 ms after storing
returns the stored value and leaves the cache untouched, and a fetch after
1500 ms returns the freshly fetched source value and restamps the entry. -/
theorem fetchData_cache_ttl_spec :
    (∀ (cfg : FetcherConfig) (env : NetEnv) (eng : Engines) (fst : FetcherState)
       (now ts t : Int) (id : String) (conf cc d : JVal),
       jsGet conf "cache" = some cc →
       jsGet cc "enabled" = some (.bool true) →
       jsGet cc "ttl" = some (.num t) → t ≠ 0 →
       cacheLookup fst id = some (d, ts) → jsIsNull d = false →
       now - ts ≤ t →
       fetchData cfg env eng fst now id (some conf) = (.ok d, fst)) ∧
    (∀ (cfg : FetcherConfig) (env : NetEnv) (eng : Engines) (fst : FetcherState)
       (now ts t : Int) (id : String) (conf cc d : JVal),
       jsGet conf "cache" = some cc →
       jsGet cc "enabled" = some (.bool true) →
       jsGet cc "ttl" = some (.num t) → t ≠ 0 →
       cacheLookup fst id = some (d, ts) →
       now - ts > t →
       fetchData cfg env eng fst now id (some conf) =
         fetchData cfg env eng (cacheDelete fst id) now id (some conf)) ∧
    (∀ (cfg : FetcherConfig) (env : NetEnv) (eng : Engines) (fst : FetcherState)
       (now ts : Int) (id : String) (conf cc d : JVal),
       jsGet conf "cache" = some cc →
       jsGet cc "enabled" = some (.bool true) →
       jsGet cc "ttl" = none →
       cacheLookup fst id = some (d, ts) → jsIsNull d = false →
       now - ts ≤ 60000 →
       fetchData cfg env eng fst now id (some conf) = (.ok d, fst)) ∧
    (∀ (cfg : FetcherConfig) (env : NetEnv) (eng : Engines) (fst : FetcherState)
       (now ts : Int) (id : String) (conf cc d : JVal),
       jsGet conf "cache" = some cc →
       jsGet cc "enabled" = some (.bool true) →
       jsGet cc "ttl" = some (.num 0) →
       cacheLookup fst id = some (d, ts) → jsIsNull d = false →
       now - ts ≤ 60000 →
       fetchData cfg env eng fst now id (some conf) = (.ok d, fst)) ∧
    (∀ (cfg : FetcherConfig) (env : NetEnv) (eng : Engines) (fst : FetcherState)
       (now ts t : Int) (id : String) (conf cc s : JVal),
       jsGet conf "cache" = some cc →
       jsGet cc "enabled" = some (.bool true) →
       jsGet cc "ttl" = some (.num t) → t ≠ 0 →
       jsGet conf "source" = some s →
       jsGet s "type" = some (.str "static") →
       jsGet conf "handlebarsTemplate" = none →
       jsGet conf "alasqlTransform" = none →
       cacheLookup fst id = some (.null, ts) →
       now - ts ≤ t →
       fetchData cfg env eng fst now id (some conf) =
         (.ok (jsGetD s "data"), cacheSet fst id (jsGetD s "data") now)) ∧
    (fetchData toolsFetcherConfig demoNet idleEngines cacheEntry 1500 "c"
       (some (cachedDemoConfig (some 1000))) = (.ok (.num 1), cacheEntry)) ∧
    (fetchData toolsFetcherConfig demoNet idleEngines cacheEntry 2500 "c"
       (some (cachedDemoConfig (some 1000))) = (.ok (.num 2), [("c", (.num 2, 2500))])) := by
  refine ⟨?_, ?_, ?_, ?_, ?_, rfl, rfl⟩
  · intro cfg env eng fst now ts t id conf cc d h1 h2 h3 h4 h5 h6 h7
    simp [fetchData, getFromCache, h1, h2, h3, h4, h5, h6, jsTruthyOpt, jsTruthy,
      not_lt.mpr h7]
  · intro cfg env eng fst now ts t id conf cc d h1 h2 h3 h4 h5 h7
    simp [fetchData, getFromCache, h1, h2, h3, h4, h5, h7, jsTruthyOpt, jsTruthy,
      cacheLookup_cacheDelete]
  · intro cfg env eng fst now ts id conf cc d h1 h2 h3 h5 h6 h7
    simp [fetchData, getFromCache, h1, h2, h3, h5, h6, jsTruthyOpt, jsTruthy,
      not_lt.mpr h7]
  · intro cfg env eng fst now ts id conf cc d h1 h2 h3 h5 h6 h7
    simp [fetchData, getFromCache, h1, h2, h3, h5, h6, jsTruthyOpt, jsTruthy,
      not_lt.mpr h7]
  · intro cfg env eng fst now ts t id conf cc s h1 h2 h3 h4 h5 h6 h7 h8 h9 h10
    simp [fetchData, getFromCache, fetchFromSource, h1, h2, h3, h4, h5, h6, h7, h8, h9,
      jsTruthyOpt, jsTruthy, jsIsNull, not_lt.mpr h10]

/-- Witness for the cache specification: its general hit clause applied to the
concrete ttl=1000 entry of age 500. -/
theorem fetchData_cache_ttl_spec_witness :
    fetchData toolsFetcherConfig demoNet idleEngines cacheEntry 1500 "c"
      (some (cachedDemoConfig (some 1000))) = (.ok (.num 1), cacheEntry) :=
  fetchData_cache_ttl_spec.1 toolsFetcherConfig demoNet idleEngines cacheEntry
    1500 1000 1000 "c" (cachedDemoConfig (some 1000))
    (.obj [("enabled", .bool true), ("ttl", .num 1000)]) (.num 1)
    rfl rfl rfl (by decide) rfl rfl (by decide)

/-! ## Grid-layout rejection -/

/-- A component sitting in area `zed`. -/
def orphanCexComp : JVal :=
  .obj [("id", .str "z1"), ("type", .str "table"), ("gridArea", .str "zed"),
        ("title", .str "Z"), ("dataConfig", .obj []), ("data", .obj []),
        ("metadata", .obj [("createdAt", .str "T0"), ("fetchStatus", .str "idle")])]

/-- A dashboard whose single component occupies area `zed`. -/
def orphanCexState : DashboardState :=
  { grid := { columns := "1fr", rows := "auto", gap := "8px", templateAreas := ["zed"] },
    components := [("z1", orphanCexComp)],
    metadata := .obj [] }

/-- A ragged candidate layout (differing token counts) that also omits `zed`. -/
def orphanCexParams : LayoutParams :=
  { columns := "1fr 1fr", rows := "auto auto", gap := "8px",
    templateAreas := ["a", "a b"] }

/-- The rejected call on the ragged layout. -/
def orphanCexRun : ToolResponse × DashboardState :=
  set_grid_layout orphanCexState orphanCexParams

/-- Counterexample to claim C3: a `set_grid_layout` call whose new normalized
template areas omit the area of an existing component, but whose layout fails
validation, is rejected with the invalid-layout error — which names no
orphaned component or area — rather than the orphan error the claim
prescribes (the state is still left unchanged). -/
theorem set_grid_layout_invalid_error_not_orphan :
    componentOrphaned orphanCexComp
      (extractGridAreas (orphanCexParams.templateAreas.map normalizeArea)) = true ∧
    orphanCexRun.1.success = false ∧
    orphanCexRun.2 = orphanCexState ∧
    orphanCexRun.1.error = some "Invalid grid layout: rows have differing token counts" ∧
    orphanCexRun.1.error ≠ some (orphanErrorMsg [orphanCexComp] ["a", "b"]) := by
  refine ⟨rfl, rfl, rfl, rfl, ?_⟩
  decide

/-- Claim C3 (amended): a `set_grid_layout` call whose new normalized template
areas do not contain the `gridArea` of at least one existing component always
returns `success = false` and leaves the state exactly as it was — no partial
application; when the candidate layout additionally passes
`validateGridLayout`, the error is the message naming the orphaned
components' areas and the new area list. -/
theorem set_grid_layout_orphan_rejected_atomically (st : DashboardState)
    (params : LayoutParams)
    (horph : ∃ kv ∈ st.components,
      componentOrphaned kv.2 (extractGridAreas (params.templateAreas.map normalizeArea)) = true) :
    ((set_grid_layout st params).1.success = false ∧ (set_grid_layout st params).2 = st) ∧
    ((validateGridLayout { params with
        templateAreas := params.templateAreas.map normalizeArea }).valid = true →
      (set_grid_layout st params).1.error =
        some (orphanErrorMsg
          ((st.components.map (fun kv => kv.2)).filter (fun c =>
            componentOrphaned c (extractGridAreas (params.templateAreas.map normalizeArea))))
          (extractGridAreas (params.templateAreas.map normalizeArea)))) := by
  obtain ⟨kv, hmem, hkv⟩ := horph
  have hne : ((st.components.map (fun kv => kv.2)).filter (fun c =>
      componentOrphaned c (extractGridAreas (params.templateAreas.map normalizeArea)))) ≠ [] := by
    have : kv.2 ∈ (st.components.map (fun kv => kv.2)).filter (fun c =>
        componentOrphaned c (extractGridAreas (params.templateAreas.map normalizeArea))) :=
      List.mem_filter.mpr ⟨List.mem_map_of_mem _ hmem, hkv⟩
    exact List.ne_nil_of_mem this
  by_cases hv : (validateGridLayout { params with
      templateAreas := params.templateAreas.map normalizeArea }).valid
  · constructor
    · constructor
      · simp [set_grid_layout, hv, List.isEmpty_iff, hne]
      · simp [set_grid_layout, hv, List.isEmpty_iff, hne]
    · intro _
      simp [set_grid_layout, hv, List.isEmpty_iff, hne]
  · exact ⟨⟨by simp [set_grid_layout, hv], by simp [set_grid_layout, hv]⟩,
      fun hvv => absurd hvv hv⟩

/-- A rectangular candidate layout that passes validation but omits `zed`. -/
def orphanValidParams : LayoutParams :=
  { columns := "1fr 1fr", rows := "auto", gap := "8px", templateAreas := ["a b"] }

/-- Witness for the orphan-rejection theorem: the `zed` component against the
valid layout `["a b"]` is rejected with the orphan-naming error and the state
is unchanged. -/
theorem set_grid_layout_orphan_rejected_atomically_witness :
    (set_grid_layout orphanCexState orphanValidParams).1.success = false ∧
    (set_grid_layout orphanCexState orphanValidParams).2 = orphanCexState ∧
    (set_grid_layout orphanCexState orphanValidParams).1.error =
      some (orphanErrorMsg [orphanCexComp] ["a", "b"]) := by
  have h := set_grid_layout_orphan_rejected_atomically orphanCexState orphanValidParams
    ⟨("z1", orphanCexComp), by simp [orphanCexState], rfl⟩
  exact ⟨h.1.1, h.1.2, h.2 rfl⟩

/-! ## Fetch failure handling -/

/-- Engines that always fail with the given message. -/
def failingEngines (e : String) : Engines :=
  { renderTemplate := fun _ _ => .error e,
    runQuery := fun _ _ _ => .error e }

/-- Claim C4: when the underlying fetch for an existing component throws, the
tool call returns `{success: false, error: message}`, the component's
`metadata.fetchStatus` becomes `error` with the message recorded, and the
component's `data` field keeps exactly its prior value. -/
theorem fetch_component_data_error_preserves_data
    (cfg : FetcherConfig) (env : NetEnv) (eng : Engines) (st : DashboardState)
    (fst fst' : FetcherState) (nowMs : Int) (nowIso : String) (id : String)
    (comp : JVal) (msg : String)
    (hc : assocGet st.components id = some comp)
    (hf : fetchData cfg env eng fst nowMs id (jsGet comp "dataConfig") = (.error msg, fst')) :
    (fetch_component_data cfg env eng st fst nowMs nowIso id).1.success = false ∧
    (fetch_component_data cfg env eng st fst nowMs nowIso id).1.error = some msg ∧
    compData (fetch_component_data cfg env eng st fst nowMs nowIso id).2.1 id =
      jsGet comp "data" ∧
    compMeta (fetch_component_data cfg env eng st fst nowMs nowIso id).2.1 id "fetchStatus" =
      some (.str "error") ∧
    compMeta (fetch_component_data cfg env eng st fst nowMs nowIso id).2.1 id "error" =
      some (.str msg) := by
  refine ⟨?_, ?_, ?_, ?_, ?_⟩
  · simp only [fetch_component_data, hc]; rw [hf]
  · simp only [fetch_component_data, hc]; rw [hf]
  · simp only [fetch_component_data, hc]
    rw [hf]
    simp [updateComponentMeta, applyChanges, assocGet_assocSet, assocGet_jsFieldsOf,
      compData, compMeta, jsGet_obj, jsFieldsOfOpt, hc]
  · simp only [fetch_component_data, hc]
    rw [hf]
    simp [updateComponentMeta, applyChanges, assocGet_assocSet, assocGet_jsFieldsOf,
      compData, compMeta, jsGet_obj, jsFieldsOfOpt, hc]
  · simp only [fetch_component_data, hc]
    rw [hf]
    simp [updateComponentMeta, applyChanges, assocGet_assocSet, assocGet_jsFieldsOf,
      compData, compMeta, jsGet_obj, jsFieldsOfOpt, hc]

/-- A component whose data config carries a Handlebars transform, with prior
fetched data on board. -/
def hbDemoComp : JVal :=
  .obj [("id", .str "h1"), ("type", .str "chart"), ("gridArea", .str "a"),
        ("title", .str "H"),
        ("dataConfig", .obj [("source", .obj [("type", .str "static"), ("data", .num 1)]),
          ("handlebarsTemplate", .obj [("template", .str "TPL")])]),
        ("data", .str "prior"),
        ("metadata", .obj [("createdAt", .str "T0"), ("fetchStatus", .str "success")])]

/-- A dashboard holding only the Handlebars-transforming component. -/
def hbDemoState : DashboardState :=
  { grid := { columns := "1fr", rows := "auto", gap := "8px", templateAreas := ["a"] },
    components := [("h1", hbDemoComp)],
    metadata := .obj [] }

/-- Witness for the fetch-failure theorem: a failing template engine makes the
fetch throw, the response fails with the prefixed message, and the prior
`data` survives. -/
theorem fetch_component_data_error_preserves_data_witness :
    (fetch_component_data toolsFetcherConfig demoNet (failingEngines "boom") hbDemoState
      [] 0 "T1" "h1").1.success = false ∧
    (fetch_component_data toolsFetcherConfig demoNet (failingEngines "boom") hbDemoState
      [] 0 "T1" "h1").1.error = some "Handlebars template failed: boom" ∧
    compData (fetch_component_data toolsFetcherConfig demoNet (failingEngines "boom")
      hbDemoState [] 0 "T1" "h1").2.1 "h1" = jsGet hbDemoComp "data" ∧
    compMeta (fetch_component_data toolsFetcherConfig demoNet (failingEngines "boom")
      hbDemoState [] 0 "T1" "h1").2.1 "h1" "fetchStatus" = some (.str "error") ∧
    compMeta (fetch_component_data toolsFetcherConfig demoNet (failingEngines "boom")
      hbDemoState [] 0 "T1" "h1").2.1 "h1" "error" =
      some (.str "Handlebars template failed: boom") :=
  fetch_component_data_error_preserves_data toolsFetcherConfig demoNet
    (failingEngines "boom") hbDemoState [] [] 0 "T1" "h1" hbDemoComp
    "Handlebars template failed: boom" rfl rfl

/-! ## Source-error / transform-error asymmetry -/

/-- Claim C8: source-level failures (unconfigured endpoint, transport error,
non-2xx response, GraphQL response errors) never raise out of the fetch — the
fetch produces the soft value `{error: reason}` in place of data, and
`fetchFromSource` succeeds for every source of the three known types — while
every failure inside the Handlebars or alasql transform raises out of
`fetchData` with the prefixed message. -/
theorem source_errors_soft_transform_errors_raised :
    (∀ (cfg : FetcherConfig) (env : NetEnv) (s : JVal),
       cfg.mcpPostgresEndpoint = none →
       fetchFromPostgreSQL cfg env s = softError (.str "PostgreSQL endpoint not configured")) ∧
    (∀ (cfg : FetcherConfig) (env : NetEnv) (s : JVal) (ep m : String),
       cfg.mcpPostgresEndpoint = some ep → env.fetchAvailable = true →
       (∀ b, env.send ep b = .transportError m) →
       fetchFromPostgreSQL cfg env s = softError (.str m)) ∧
    (∀ (cfg : FetcherConfig) (env : NetEnv) (s : JVal) (ep stx : String) (bod : JVal),
       cfg.mcpPostgresEndpoint = some ep → env.fetchAvailable = true →
       (∀ b, env.send ep b = .response false stx bod) →
       fetchFromPostgreSQL cfg env s = softError (.str stx)) ∧
    (∀ (cfg : FetcherConfig) (env : NetEnv) (s : JVal) (ep stx : String) (bod errs : JVal),
       jsGet s "endpoint" = none → cfg.graphqlEndpoint = some ep → env.fetchAvailable = true →
       (∀ b, env.send ep b = .response true stx bod) →
       jsGet bod "errors" = some errs → jsTruthy errs = true →
       fetchFromGraphQL cfg env s = softError errs) ∧
    (∀ (cfg : FetcherConfig) (env : NetEnv) (s : JVal) (t : String),
       jsGet s "type" = some (.str t) →
       (t = "postgresql" ∨ t = "graphql" ∨ t = "static") →
       ∃ v, fetchFromSource cfg env (some s) = .ok v) ∧
    (∀ (cfg : FetcherConfig) (env : NetEnv) (eng : Engines) (fst : FetcherState)
       (now : Int) (id e : String) (conf s h : JVal),
       jsGet conf "cache" = none → jsGet conf "source" = some s →
       jsGet s "type" = some (.str "static") →
       jsGet conf "handlebarsTemplate" = some h → jsTruthy h = true →
       (∀ t c, eng.renderTemplate t c = .error e) →
       fetchData cfg env eng fst now id (some conf) =
         (.error ("Handlebars template failed: " ++ e), fst)) ∧
    (∀ (cfg : FetcherConfig) (env : NetEnv) (eng : Engines) (fst : FetcherState)
       (now : Int) (id e : String) (conf s tr : JVal),
       jsGet conf "cache" = none → jsGet conf "source" = some s →
       jsGet s "type" = some (.str "static") →
       jsGet conf "handlebarsTemplate" = none →
       jsGet conf "alasqlTransform" = some tr → jsTruthy tr = true →
       (∀ q r p, eng.runQuery q r p = .error e) →
       fetchData cfg env eng fst now id (some conf) =
         (.error ("AlaSQL transform failed: " ++ e), fst)) := by
  refine ⟨?_, ?_, ?_, ?_, ?_, ?_, ?_⟩
  · intro cfg env s h1
    simp [fetchFromPostgreSQL, h1]
  · intro cfg env s ep m h1 h2 h3
    simp [fetchFromPostgreSQL, h1, h2, h3]
  · intro cfg env s ep stx bod h1 h2 h3
    simp [fetchFromPostgreSQL, h1, h2, h3]
  · intro cfg env s ep stx bod errs h0 h1 h2 h3 h4 h5
    simp [fetchFromGraphQL, h0, h1, h2, h3, h4, h5]
  · intro cfg env s t h1 h2
    rcases h2 with h | h | h
    all_goals subst h
    · exact ⟨fetchFromPostgreSQL cfg env s, by simp [fetchFromSource, h1]⟩
    · exact ⟨fetchFromGraphQL cfg env s, by simp [fetchFromSource, h1]⟩
    · exact ⟨jsGetD s "data", by simp [fetchFromSource, h1]⟩
  · intro cfg env eng fst now id e conf s h hcache hsrc htyp hhb htr hfail
    simp [fetchData, fetchFromSource, applyHandlebarsTemplate, hcache, hsrc, htyp, hhb,
      htr, hfail, jsTruthyOpt]
  · intro cfg env eng fst now id e conf s tr hcache hsrc htyp hhb hal htr hfail
    simp [fetchData, fetchFromSource, applyAlaSQLTransform, hcache, hsrc, htyp, hhb, hal,
      htr, hfail, jsTruthyOpt]

/-- A network answering every call with a 500-style failure response. -/
def badStatusNet : NetEnv :=
  { send := fun _ _ => .response false "Internal Server Error" (.obj []) }

/-- A network answering every call with a GraphQL error payload. -/
def gqlErrorNet : NetEnv :=
  { send := fun _ _ => .response true "OK" (.obj [("errors", .arr [.str "bad query"])]) }

/-- A static source descriptor used by the witnesses. -/
def staticSrc : JVal := .obj [("type", .str "static"), ("data", .num 1)]

/-- A config with a static source and a Handlebars transform. -/
def hbConf : JVal :=
  .obj [("source", staticSrc), ("handlebarsTemplate", .obj [("template", .str "TPL")])]

/-- A config with a static source and an alasql transform. -/
def alasqlConf : JVal :=
  .obj [("source", staticSrc), ("alasqlTransform", .obj [("query", .str "SELECT 1")])]

/-- Witness for the error-asymmetry theorem: each clause applied at concrete
sources, networks and engines. -/
theorem source_errors_soft_transform_errors_raised_witness :
    fetchFromPostgreSQL { mcpPostgresEndpoint := none } demoNet (.obj []) =
      softError (.str "PostgreSQL endpoint not configured") ∧
    fetchFromPostgreSQL toolsFetcherConfig (netDown "connection refused") (.obj []) =
      softError (.str "connection refused") ∧
    fetchFromPostgreSQL toolsFetcherConfig badStatusNet (.obj []) =
      softError (.str "Internal Server Error") ∧
    fetchFromGraphQL toolsFetcherConfig gqlErrorNet (.obj []) =
      softError (.arr [.str "bad query"]) ∧
    (∃ v, fetchFromSource toolsFetcherConfig demoNet (some staticSrc) = .ok v) ∧
    fetchData toolsFetcherConfig demoNet (failingEngines "boom") [] 0 "w" (some hbConf) =
      (.error ("Handlebars template failed: " ++ "boom"), []) ∧
    fetchData toolsFetcherConfig demoNet (failingEngines "boom") [] 0 "w" (some alasqlConf) =
      (.error ("AlaSQL transform failed: " ++ "boom"), []) := by
  have h := source_errors_soft_transform_errors_raised
  exact ⟨h.1 _ demoNet (.obj []) rfl,
    h.2.1 _ _ (.obj []) "/api/mcp/postgres" "connection refused" rfl rfl (fun _ => rfl),
    h.2.2.1 _ _ (.obj []) "/api/mcp/postgres" "Internal Server Error" (.obj []) rfl rfl
      (fun _ => rfl),
    h.2.2.2.1 _ _ (.obj []) "/graphql" "OK" (.obj [("errors", .arr [.str "bad query"])])
      (.arr [.str "bad query"]) rfl rfl rfl (fun _ => rfl) rfl rfl,
    h.2.2.2.2.1 _ _ staticSrc "static" rfl (Or.inr (Or.inr rfl)),
    h.2.2.2.2.2.1 _ _ _ [] 0 "w" "boom" hbConf staticSrc
      (.obj [("template", .str "TPL")]) rfl rfl rfl rfl rfl (fun _ _ => rfl),
    h.2.2.2.2.2.2 _ _ _ [] 0 "w" "boom" alasqlConf staticSrc
      (.obj [("query", .str "SELECT 1")]) rfl rfl rfl rfl rfl rfl (fun _ _ _ => rfl)⟩

/-! ## Grid-area invariant preservation -/

theorem assocGet_applyChanges_ne (fs : List (String × JVal)) (chs : List (String × Option JVal))
    (k : String) (hk : ∀ ch ∈ chs, ch.1 ≠ k) :
    assocGet (applyChanges fs chs) k = assocGet fs k := by
  induction chs generalizing fs with
  | nil => rfl
  | cons ch rest ih =>
    have h1 : ch.1 ≠ k := hk ch (List.mem_cons_self _ _)
    have h2 : ∀ c ∈ rest, c.1 ≠ k := fun c hc => hk c (List.mem_cons_of_mem _ hc)
    cases hch : ch.2 with
    | some v =>
      have hstep : applyChanges fs (ch :: rest) = applyChanges (assocSet fs ch.1 v) rest := by
        simp [applyChanges, hch]
      rw [hstep, ih _ h2, assocGet_assocSet, if_neg (Ne.symm h1)]
    | none =>
      have hstep : applyChanges fs (ch :: rest) = applyChanges (assocRemove fs ch.1) rest := by
        simp [applyChanges, hch]
      rw [hstep, ih _ h2, assocGet_assocRemove, if_neg (Ne.symm h1)]

theorem areaOf_obj (fs : List (String × JVal)) :
    areaOf (.obj fs) = (match assocGet fs "gridArea" with
                        | some (.str a) => some a
                        | _ => none) := rfl

theorem areaOf_updateComp (old : Option JVal) (top : List (String × Option JVal)) (m : JVal)
    (htop : ∀ ch ∈ top, ch.1 ≠ "gridArea") :
    areaOf (.obj (applyChanges (jsFieldsOfOpt old) (top ++ [("metadata", some m)]))) =
      old.bind areaOf := by
  have hall : ∀ ch ∈ top ++ [(("metadata" : String), some m)], ch.1 ≠ "gridArea" := by
    intro ch hch
    rcases List.mem_append.mp hch with h | h
    · exact htop ch h
    · rcases List.mem_singleton.mp h with rfl
      simp
  rw [areaOf_obj, assocGet_applyChanges_ne _ _ _ hall]
  cases old with
  | none => rfl
  | some c =>
    rw [show jsFieldsOfOpt (some c) = jsFieldsOf c from rfl,
      assocGet_jsFieldsOf c _ (by decide)]
    rfl

theorem filterMap_areaOf_assocSet_same (comps : List (String × JVal)) (id : String)
    (c c' : JVal) (hget : assocGet comps id = some c) (harea : areaOf c' = areaOf c) :
    (assocSet comps id c').filterMap (fun kv => areaOf kv.2) =
      comps.filterMap (fun kv => areaOf kv.2) := by
  induction comps with
  | nil => simp [assocGet] at hget
  | cons kv rest ih =>
    obtain ⟨a, b⟩ := kv
    by_cases ha : a = id
    · subst ha
      simp only [assocGet, if_pos rfl] at hget
      obtain rfl : b = c := by injection hget
      simp [assocSet, List.filterMap_cons, harea]
    · simp only [assocGet, if_neg ha] at hget
      simp [assocSet, ha, List.filterMap_cons, ih hget]

theorem assocSet_of_get_none {β : Type} (comps : List (String × β)) (id : String) (c : β)
    (hget : assocGet comps id = none) :
    assocSet comps id c = comps ++ [(id, c)] := by
  induction comps with
  | nil => rfl
  | cons kv rest ih =>
    obtain ⟨a, b⟩ := kv
    by_cases ha : a = id
    · subst ha; simp [assocGet] at hget
    · simp only [assocGet, if_neg ha] at hget
      simp [assocSet, ha, ih hget]

theorem areaList_updateComponentMeta (comps : List (String × JVal)) (id : String)
    (top meta : List (String × Option JVal)) (htop : ∀ ch ∈ top, ch.1 ≠ "gridArea") :
    (updateComponentMeta comps id top meta).filterMap (fun kv => areaOf kv.2) =
      comps.filterMap (fun kv => areaOf kv.2) := by
  unfold updateComponentMeta
  cases hold : assocGet comps id with
  | some c =>
    apply filterMap_areaOf_assocSet_same comps id c _ hold
    rw [areaOf_updateComp (some c) top _ htop]
    rfl
  | none =>
    rw [assocSet_of_get_none _ _ _ hold, List.filterMap_append]
    have h0 := areaOf_updateComp none top
      (JVal.obj (applyChanges (jsFieldsOfOpt (none : Option JVal)) meta)) htop
    simp only [Option.bind] at h0
    simp [List.filterMap_cons, h0]


theorem any_area_eq_mem (a : String) (l : List (String × JVal)) :
    (l.any (fun kv =>
      match jsGet kv.2 "gridArea" with
      | some (.str g) => g = a
      | _ => false)) = true ↔ a ∈ l.filterMap (fun kv => areaOf kv.2) := by
  induction l with
  | nil => simp
  | cons kv rest ih =>
    simp only [List.any_cons, Bool.or_eq_true, ih, List.filterMap_cons]
    rcases hv : jsGet kv.2 "gridArea" with _ | v
    · simp [areaOf, hv]
    · cases v <;> simp [areaOf, hv, eq_comm]

theorem isGridAreaOccupied_iff (a : String) (st : DashboardState) :
    isGridAreaOccupied a st = true ↔ a ∈ areaList st :=
  any_area_eq_mem a st.components

theorem assocRemove_sublist {β : Type} (fs : List (String × β)) (k : String) :
    (assocRemove fs k).Sublist fs := by
  induction fs with
  | nil => simp [assocRemove]
  | cons kv rest ih =>
    by_cases h : kv.1 = k
    · simpa [assocRemove, h] using ih.cons kv
    · simpa [assocRemove, h] using ih.cons₂ kv


theorem areaOf_mkComponentJson (p : CreateParams) (now : String) :
    areaOf (mkComponentJson p now) = some p.gridArea := by
  simp [mkComponentJson, areaOf, jsGet, assocGet]

theorem create_component_components (st : DashboardState) (now : String) (p : CreateParams) :
    (create_component st now p).2.components = st.components ∨
    (assocGet st.components p.id = none ∧ isGridAreaOccupied p.gridArea st = false ∧
     (create_component st now p).2.components =
       assocSet st.components p.id (mkComponentJson p now)) := by
  unfold create_component
  cases h1 : assocGet st.components p.id with
  | some c => exact Or.inl rfl
  | none =>
    by_cases h2 : isValidGridArea p.gridArea st.grid.templateAreas
    · by_cases h3 : isGridAreaOccupied p.gridArea st
      · simp [h2, h3]
      · simp [h2, h3]
    · simp [h2]


theorem create_preserves_nodup (st : DashboardState) (now : String) (p : CreateParams)
    (h : (areaList st).Nodup) : (areaList (create_component st now p).2).Nodup := by
  rcases create_component_components st now p with hsame | ⟨h1, h3, hset⟩
  · show ((create_component st now p).2.components.filterMap (fun kv => areaOf kv.2)).Nodup
    rw [hsame]
    exact h
  · show ((create_component st now p).2.components.filterMap (fun kv => areaOf kv.2)).Nodup
    rw [hset, assocSet_of_get_none _ _ _ h1, List.filterMap_append]
    have hap : areaOf (mkComponentJson p now) = some p.gridArea := areaOf_mkComponentJson p now
    have hnotmem : p.gridArea ∉ areaList st := by
      intro hmem
      rw [← isGridAreaOccupied_iff p.gridArea st] at hmem
      rw [h3] at hmem
      cases hmem
    rw [show ([(p.id, mkComponentJson p now)].filterMap (fun kv => areaOf kv.2)) =
      [p.gridArea] by simp [hap]]
    rw [(List.perm_append_singleton _ _).nodup_iff, List.nodup_cons]
    exact ⟨hnotmem, h⟩

theorem remove_preserves_nodup (st : DashboardState) (id : String)
    (h : (areaList st).Nodup) : (areaList (remove_component st id).2).Nodup := by
  show ((remove_component st id).2.components.filterMap (fun kv => areaOf kv.2)).Nodup
  unfold remove_component
  cases h1 : assocGet st.components id with
  | none => exact h
  | some c =>
    exact h.sublist ((assocRemove_sublist st.components id).filterMap _)

theorem set_grid_layout_components (st : DashboardState) (params : LayoutParams) :
    (set_grid_layout st params).2.components = st.components := by
  unfold set_grid_layout
  by_cases hv : (validateGridLayout { params with
      templateAreas := params.templateAreas.map normalizeArea }).valid
  · by_cases ho : ((st.components.map (fun kv => kv.2)).filter (fun c =>
        componentOrphaned c (extractGridAreas (params.templateAreas.map normalizeArea)))).isEmpty
    · simp [hv, ho]
    · simp [hv, ho]
  · simp [hv]

theorem set_grid_layout_preserves_nodup (st : DashboardState) (params : LayoutParams)
    (h : (areaList st).Nodup) : (areaList (set_grid_layout st params).2).Nodup := by
  show ((set_grid_layout st params).2.components.filterMap (fun kv => areaOf kv.2)).Nodup
  rw [set_grid_layout_components]
  exact h

theorem fetch_preserves_nodup (cfg : FetcherConfig) (env : NetEnv) (eng : Engines)
    (st : DashboardState) (fst : FetcherState) (nowMs : Int) (nowIso id : String)
    (h : (areaList st).Nodup) :
    (areaList (fetch_component_data cfg env eng st fst nowMs nowIso id).2.1).Nodup := by
  show ((fetch_component_data cfg env eng st fst nowMs nowIso id).2.1.components.filterMap
    (fun kv => areaOf kv.2)).Nodup
  unfold fetch_component_data
  cases h1 : assocGet st.components id with
  | none => exact h
  | some comp =>
    rcases hf : fetchData cfg env eng fst nowMs id (jsGet comp "dataConfig") with ⟨r, fst'⟩
    cases r with
    | ok d =>
      simp only [hf]
      rw [areaList_updateComponentMeta _ _ _ _ (by simp),
        areaList_updateComponentMeta _ _ _ _ (by simp)]
      exact h
    | error e =>
      simp only [hf]
      rw [areaList_updateComponentMeta _ _ _ _ (by simp),
        areaList_updateComponentMeta _ _ _ _ (by simp)]
      exact h

theorem refresh_fold_preserves (nowIso : String) (results : List (String × Except String JVal))
    (comps : List (String × JVal)) :
    ((results.foldl (fun cs idres => refreshApply cs nowIso idres) comps).filterMap
      (fun kv => areaOf kv.2)) = comps.filterMap (fun kv => areaOf kv.2) := by
  induction results generalizing comps with
  | nil => rfl
  | cons idres rest ih =>
    obtain ⟨rid, r⟩ := idres
    rw [List.foldl_cons, ih]
    cases r with
    | ok d =>
      simp only [refreshApply]
      rw [areaList_updateComponentMeta _ _ _ _ (by simp)]
    | error e =>
      simp only [refreshApply]
      rw [areaList_updateComponentMeta _ _ _ _ (by simp)]

theorem refresh_preserves_nodup (cfg : FetcherConfig) (env : NetEnv) (eng : Engines)
    (st : DashboardState) (fst : FetcherState) (nowMs : Int) (nowIso : String)
    (h : (areaList st).Nodup) :
    (areaList (refresh_all_components cfg env eng st fst nowMs nowIso).2.1).Nodup := by
  show ((refresh_all_components cfg env eng st fst nowMs nowIso).2.1.components.filterMap
    (fun kv => areaOf kv.2)).Nodup
  unfold refresh_all_components
  simp only []
  rw [refresh_fold_preserves]
  exact h

/-- A small component occupying the given area. -/
def dupComp (i area : String) : JVal :=
  .obj [("id", .str i), ("type", .str "table"), ("gridArea", .str area),
        ("title", .str "T"), ("dataConfig", .obj []), ("data", .obj []),
        ("metadata", .obj [("createdAt", .str "T0"), ("fetchStatus", .str "idle")])]

/-- A dashboard satisfying the placement invariant: `c1` in `a`, `c2` in `b`. -/
def dupCexState : DashboardState :=
  { grid := { columns := "1fr 1fr", rows := "auto", gap := "8px", templateAreas := ["a b"] },
    components := [("c1", dupComp "c1" "a"), ("c2", dupComp "c2" "b")],
    metadata := .obj [] }

/-- The shallow-merge update moving `c2` onto the occupied area `a`. -/
def dupCexRun : ToolResponse × DashboardState :=
  update_component dupCexState "T1" "c2" none (.obj [("gridArea", .str "a")])

/-- Counterexample to claim C1: from a state satisfying the invariant, a
successful `update_component` (here without a path, setting `gridArea`)
produces a state with two components in area `a` — `update_component`
performs no grid-area validation at all. -/
theorem update_component_can_duplicate_area :
    atMostOnePerArea dupCexState ∧
    dupCexRun.1.success = true ∧
    ¬ atMostOnePerArea dupCexRun.2 := by
  refine ⟨?_, rfl, ?_⟩
  · rw [atMostOnePerArea_iff_nodup]
    decide
  · intro h
    have hc := h "a"
    have h2 : (areaList dupCexRun.2).count "a" = 2 := by decide
    rw [h2] at hc
    exact absurd hc (by decide)

/-- Claim C1 (amended): the at-most-one-component-per-area invariant is
preserved by every mutating tool operation except `update_component` —
`create_component`, `remove_component`, `set_grid_layout`,
`fetch_component_data` and `refresh_all_components` all keep it (whether they
succeed or reject); `update_component` can break it, since it validates
nothing about `gridArea`. -/
theorem mutations_preserve_area_uniqueness :
    (∀ (st : DashboardState) (now : String) (p : CreateParams),
       atMostOnePerArea st → atMostOnePerArea (create_component st now p).2) ∧
    (∀ (st : DashboardState) (id : String),
       atMostOnePerArea st → atMostOnePerArea (remove_component st id).2) ∧
    (∀ (st : DashboardState) (params : LayoutParams),
       atMostOnePerArea st → atMostOnePerArea (set_grid_layout st params).2) ∧
    (∀ (cfg : FetcherConfig) (env : NetEnv) (eng : Engines) (st : DashboardState)
       (fst : FetcherState) (nowMs : Int) (nowIso id : String),
       atMostOnePerArea st →
       atMostOnePerArea (fetch_component_data cfg env eng st fst nowMs nowIso id).2.1) ∧
    (∀ (cfg : FetcherConfig) (env : NetEnv) (eng : Engines) (st : DashboardState)
       (fst : FetcherState) (nowMs : Int) (nowIso : String),
       atMostOnePerArea st →
       atMostOnePerArea (refresh_all_components cfg env eng st fst nowMs nowIso).2.1) := by
  refine ⟨?_, ?_, ?_, ?_, ?_⟩
  · intro st now p h
    rw [atMostOnePerArea_iff_nodup] at h ⊢
    exact create_preserves_nodup st now p h
  · intro st id h
    rw [atMostOnePerArea_iff_nodup] at h ⊢
    exact remove_preserves_nodup st id h
  · intro st params h
    rw [atMostOnePerArea_iff_nodup] at h ⊢
    exact set_grid_layout_preserves_nodup st params h
  · intro cfg env eng st fst nowMs nowIso id h
    rw [atMostOnePerArea_iff_nodup] at h ⊢
    exact fetch_preserves_nodup cfg env eng st fst nowMs nowIso id h
  · intro cfg env eng st fst nowMs nowIso h
    rw [atMostOnePerArea_iff_nodup] at h ⊢
    exact refresh_preserves_nodup cfg env eng st fst nowMs nowIso h

/-- Witness for the invariant-preservation theorem: creating `c3` in the free
area `b` of the demo dashboard and removing a component both keep the
invariant. -/
theorem mutations_preserve_area_uniqueness_witness :
    atMostOnePerArea (create_component demoStep1.2 demoNow
      { id := "c3", type_ := "table", gridArea := "sidebar", title := "S",
        dataConfig := .obj [] }).2 ∧
    atMostOnePerArea (remove_component demoStep1.2 "c1").2 := by
  have h1 : atMostOnePerArea demoStep1.2 := by
    rw [atMostOnePerArea_iff_nodup]
    decide
  exact ⟨mutations_preserve_area_uniqueness.1 demoStep1.2 demoNow _ h1,
    mutations_preserve_area_uniqueness.2.1 demoStep1.2 "c1" h1⟩

/-! ## Path updates and metadata -/

/-- The fields of a component carrying an explicit `metadata.updatedAt`. -/
def metaCexFields : List (String × JVal) :=
  [("id", .str "m1"), ("type", .str "table"), ("gridArea", .str "a"),
   ("title", .str "M"), ("dataConfig", .obj []), ("data", .obj []),
   ("metadata", .obj [("createdAt", .str "T0"), ("updatedAt", .str "OLD"),
     ("fetchStatus", .str "idle")])]

/-- The component with `metadata.updatedAt = "OLD"`. -/
def metaCexComp : JVal := .obj metaCexFields

/-- A dashboard holding only that component. -/
def metaCexState : DashboardState :=
  { grid := { columns := "1fr", rows := "auto", gap := "8px", templateAreas := ["a"] },
    components := [("m1", metaCexComp)],
    metadata := .obj [] }

/-- The path update aimed straight at `metadata.updatedAt`. -/
def metaCexRun : ToolResponse × DashboardState :=
  update_component metaCexState "T9" "m1" (some "$.metadata.updatedAt") (.str "HACK")

/-- Counterexample to claim C9: an `update_component` call that supplies the
path `$.metadata.updatedAt` succeeds and rewrites `metadata.updatedAt`
itself, so the field is not left unchanged by every path-carrying call. -/
theorem update_component_path_can_change_updatedAt :
    compMeta metaCexState "m1" "updatedAt" = some (.str "OLD") ∧
    metaCexRun.1.success = true ∧
    compMeta metaCexRun.2 "m1" "updatedAt" = some (.str "HACK") := ⟨rfl, rfl, rfl⟩

/-- A nonempty segment list makes `navCore` end in a throw or at a parent
whose recorded descent extends the accumulator. -/
theorem navCore_result (parts : List String) (hne : parts ≠ []) :
    ∀ (cur : Option JVal) (acc : List Step),
    navCore cur parts acc = .thrown ∨
    ∃ suffix key ex v, navCore cur parts acc = .at_ (acc ++ suffix) key ex v := by
  induction parts with
  | nil => exact absurd rfl hne
  | cons p rest ih =>
    intro cur acc
    cases rest with
    | nil =>
      rcases hpi : jsParseInt p with _ | n
      · rcases cur with _ | v
        · exact Or.inr ⟨[], .fld p, false, none, by simp [navCore, hpi]⟩
        · cases v with
          | null => exact Or.inr ⟨[], .fld p, false, none, by simp [navCore, hpi]⟩
          | bool b => exact Or.inl (by simp [navCore, hpi])
          | num m => exact Or.inl (by simp [navCore, hpi])
          | str s => exact Or.inl (by simp [navCore, hpi])
          | arr xs => exact Or.inr ⟨[], .fld p, jsHas (.arr xs) p, jsGet (.arr xs) p,
              by simp [navCore, hpi]⟩
          | obj fs => exact Or.inr ⟨[], .fld p, jsHas (.obj fs) p, jsGet (.obj fs) p,
              by simp [navCore, hpi]⟩
      · rcases cur with _ | v
        · exact Or.inr ⟨[], .fld p, false, none, by simp [navCore, hpi]⟩
        · cases v with
          | null => exact Or.inr ⟨[], .fld p, false, none, by simp [navCore, hpi]⟩
          | bool b => exact Or.inl (by simp [navCore, hpi])
          | num m => exact Or.inl (by simp [navCore, hpi])
          | str s => exact Or.inl (by simp [navCore, hpi])
          | arr xs => exact Or.inr ⟨[], .idx n,
              (decide (0 ≤ n) && decide (n < (xs.length : Int))), arrGetI xs n,
              by simp [navCore, hpi]⟩
          | obj fs => exact Or.inr ⟨[], .fld p, jsHas (.obj fs) p, jsGet (.obj fs) p,
              by simp [navCore, hpi]⟩
    | cons q rest' =>
      have ihq := ih (by simp)
      rcases hsn : (match jsParseInt p, cur with
        | some n, some (.arr xs) => ((Step.idx n : Step), arrGetI xs n)
        | _, _ => ((Step.fld p : Step), cur.bind (fun v => jsGet v p))) with ⟨stp, next⟩
      rcases next with _ | w
      · exact Or.inr ⟨[], stp, false, none, by simp [navCore, hsn]⟩
      · by_cases hwn : jsIsNull w
        · exact Or.inr ⟨[], stp, false, none, by simp [navCore, hsn, hwn]⟩
        · rcases ihq (some w) (acc ++ [stp]) with hthr | ⟨suf, key, ex, v, hat⟩
          · exact Or.inl (by simp [navCore, hsn, hwn, hthr])
          · refine Or.inr ⟨stp :: suf, key, ex, v, ?_⟩
            simp only [navCore, hsn, hwn]
            rw [hat]
            simp

/-- Navigation from an object either throws, stops at the object itself with
the first segment as key, or its first descent step enters that segment's
field. -/
theorem navCore_obj_first (fs : List (String × JVal)) (p : String) (rest : List String) :
    navCore (some (.obj fs)) (p :: rest) [] = .thrown ∨
    (∃ ex v, navCore (some (.obj fs)) (p :: rest) [] = .at_ [] (.fld p) ex v) ∨
    (∃ steps key ex v, navCore (some (.obj fs)) (p :: rest) [] =
      .at_ (Step.fld p :: steps) key ex v) := by
  cases rest with
  | nil =>
    rcases hpi : jsParseInt p with _ | n
    · exact Or.inr (Or.inl ⟨jsHas (.obj fs) p, jsGet (.obj fs) p, by simp [navCore, hpi]⟩)
    · exact Or.inr (Or.inl ⟨jsHas (.obj fs) p, jsGet (.obj fs) p, by simp [navCore, hpi]⟩)
  | cons q rest' =>
    have hsn : (match jsParseInt p, (some (JVal.obj fs) : Option JVal) with
        | some n, some (.arr xs) => ((Step.idx n : Step), arrGetI xs n)
        | _, _ => ((Step.fld p : Step),
            (some (JVal.obj fs) : Option JVal).bind (fun v => jsGet v p))) =
        ((Step.fld p : Step), assocGet fs p) := by
      rcases jsParseInt p with _ | n <;> rfl
    rcases hnext : assocGet fs p with _ | w
    · refine Or.inr (Or.inl ⟨false, none, ?_⟩)
      simp only [navCore, hsn, hnext]
    · by_cases hwn : jsIsNull w
      · refine Or.inr (Or.inl ⟨false, none, ?_⟩)
        simp only [navCore, hsn, hnext]
        simp [hwn]
      · rcases navCore_result (q :: rest') (by simp) (some w) [Step.fld p] with
          hthr | ⟨suf, key, ex, v, hat⟩
        · refine Or.inl ?_
          simp only [navCore, hsn, hnext]
          simp [hwn, hthr]
        · refine Or.inr (Or.inr ⟨suf, key, ex, v, ?_⟩)
          simp only [navCore, hsn, hnext]
          simp only [hwn, if_neg, Bool.false_eq_true, ite_false]
          simpa using hat

/-- A successful path write into an object whose first segment is some other
field leaves any different field untouched. -/
theorem setValueAtPath_obj_preserves_field (fs : List (String × JVal)) (path : String)
    (v comp' : JVal) (p k : String) (rest : List String)
    (hp : partsOf path = p :: rest) (hne : p ≠ k)
    (hok : setValueAtPath (.obj fs) path v = .ok comp') :
    jsGet comp' k = jsGet (.obj fs) k := by
  have hemp : partsOf "" = [] := rfl
  have hdol : partsOf "$" = [] := rfl
  have hpath : ¬ (path = "" ∨ path = "$") := by
    rintro (rfl | rfl)
    · rw [hemp] at hp; cases hp
    · rw [hdol] at hp; cases hp
  have hclean : ¬ (cleanOf path = "") := by
    intro hcl
    have h0 : partsOf path = [] := by
      unfold partsOf
      rw [hcl]
      rfl
    rw [h0] at hp; cases hp
  unfold setValueAtPath at hok
  rw [if_neg hpath] at hok
  unfold navigateToPath at hok
  rw [if_neg hpath, if_neg hclean, hp] at hok
  rw [show (match p :: rest with
      | [] => NavResult.whole false none
      | p :: rest => navCore (some (JVal.obj fs)) (p :: rest) []) =
    navCore (some (JVal.obj fs)) (p :: rest) [] from rfl] at hok
  rcases navCore_obj_first fs p rest with hnav | ⟨ex, vv, hnav⟩ | ⟨steps, key, ex, vv, hnav⟩
  · rw [hnav] at hok; cases hok
  · rw [hnav] at hok
    have hcomp : comp' = setAtSteps (.obj fs) [] (.fld p) v := by
      injection hok with h; exact h.symm
    subst hcomp
    simp [setAtSteps, jsAssign, jsGet_obj, assocGet_assocSet, Ne.symm hne]
  · rw [hnav] at hok
    have hcomp : comp' = setAtSteps (.obj fs) (Step.fld p :: steps) key v := by
      injection hok with h; exact h.symm
    subst hcomp
    simp [setAtSteps, jsGet_obj, assocGet_assocModify, Ne.symm hne]

/-- Claim C9 (amended): an `update_component` call supplying a truthy path
whose first parsed segment is not `metadata` leaves the component's
`metadata.updatedAt` unchanged (only the no-path shallow-merge branch stamps
it), and leaves every other component and the grid unchanged — whether the
path write succeeds or throws. -/
theorem update_component_path_frame
    (st : DashboardState) (now id pathStr : String) (updates : JVal)
    (fs : List (String × JVal)) (p : String) (rest : List String)
    (hc : assocGet st.components id = some (.obj fs))
    (hp : partsOf pathStr = p :: rest) (hpm : p ≠ "metadata") (hps : pathStr ≠ "") :
    compMeta (update_component st now id (some pathStr) updates).2 id "updatedAt" =
      compMeta st id "updatedAt" ∧
    (∀ id', id' ≠ id →
      assocGet (update_component st now id (some pathStr) updates).2.components id' =
        assocGet st.components id') ∧
    (update_component st now id (some pathStr) updates).2.grid = st.grid := by
  simp only [update_component, hc]
  rcases hset : setValueAtPath (.obj fs) pathStr updates with _ | upd
  · simp [hps, hset, compMeta]
  · have hmeta : jsGet upd "metadata" = jsGet (.obj fs) "metadata" :=
      setValueAtPath_obj_preserves_field fs pathStr updates upd p "metadata" rest hp hpm hset
    refine ⟨?_, ?_, ?_⟩
    · simp [hps, hset, compMeta, assocGet_assocSet, hc, hmeta]
    · intro id' hid
      simp [hps, hset, assocGet_assocSet, hid]
    · simp [hps, hset]

/-- Witness for the path-update frame theorem: a path write into `data` of the
demo component keeps `metadata.updatedAt`, other map entries and the grid. -/
theorem update_component_path_frame_witness :
    compMeta (update_component metaCexState "T9" "m1" (some "$.data.rows") (.num 5)).2
      "m1" "updatedAt" = compMeta metaCexState "m1" "updatedAt" ∧
    assocGet (update_component metaCexState "T9" "m1" (some "$.data.rows") (.num 5)).2.components
      "zz" = assocGet metaCexState.components "zz" ∧
    (update_component metaCexState "T9" "m1" (some "$.data.rows") (.num 5)).2.grid =
      metaCexState.grid := by
  have h := update_component_path_frame metaCexState "T9" "m1" "$.data.rows" (.num 5)
    metaCexFields "data" ["rows"] rfl rfl (by decide) (by decide)
  exact ⟨h.1, h.2.1 "zz" (by decide), h.2.2⟩

/-! ## Path roundtrip

Index keys of arrays and boxed strings are decimal numerals, so they never
collide with the alphabetic segments of the roundtrip path. -/

/-- The `exists` field of a navigation result (`false` for a throw). -/
def navExists : NavResult → Bool
  | .whole e _ => e
  | .at_ _ _ e _ => e
  | .thrown => false

/-- The `value` field of a navigation result. -/
def navValue : NavResult → Option JVal
  | .whole _ v => v
  | .at_ _ _ _ v => v
  | .thrown => none


theorem digitChar_isDigit (n : Nat) (h : n < 10) : (Nat.digitChar n).isDigit := by
  interval_cases n <;> decide

theorem toDigitsCore_digits (f : Nat) : ∀ (n : Nat) (l : List Char),
    ∃ ds, Nat.toDigitsCore 10 f n l = ds ++ l ∧ ∀ c ∈ ds, c.isDigit = true := by
  induction f with
  | zero => intro n l; exact ⟨[], rfl, by simp⟩
  | succ f ih =>
    intro n l
    by_cases h : n / 10 = 0
    · refine ⟨[Nat.digitChar (n % 10)], by simp [Nat.toDigitsCore, h], ?_⟩
      intro c hc
      rcases List.mem_singleton.mp hc with rfl
      exact digitChar_isDigit _ (Nat.mod_lt _ (by omega))
    · obtain ⟨ds, hds, hdig⟩ := ih (n / 10) (Nat.digitChar (n % 10) :: l)
      refine ⟨ds ++ [Nat.digitChar (n % 10)], ?_, ?_⟩
      · simp [Nat.toDigitsCore, h, hds]
      · intro c hc
        rcases List.mem_append.mp hc with hc | hc
        · exact hdig c hc
        · rcases List.mem_singleton.mp hc with rfl
          exact digitChar_isDigit _ (Nat.mod_lt _ (by omega))

theorem nat_toString_digits (n : Nat) : ∀ c ∈ (toString n).data, c.isDigit = true := by
  obtain ⟨ds, hds, hdig⟩ := toDigitsCore_digits (n + 1) n []
  intro c hc
  have hrepr : (toString n).data = ds := by
    show (Nat.repr n).data = ds
    simp [Nat.repr, Nat.toDigits, List.asString, hds]
  exact hdig c (hrepr ▸ hc)

theorem assocGet_natkey_none {β : Type} (l : List (Nat × β)) (k : String)
    (hk : ∃ c ∈ k.data, c.isDigit = false) :
    assocGet (l.map (fun p => (toString p.1, p.2))) k = none := by
  induction l with
  | nil => rfl
  | cons p rest ih =>
    simp only [List.map_cons, assocGet]
    have hne : ¬ (toString p.1 = k) := by
      intro he
      obtain ⟨c, hmem, hnd⟩ := hk
      have := nat_toString_digits p.1 c (by rw [he]; exact hmem)
      rw [this] at hnd
      cases hnd
    rw [if_neg hne]
    exact ih

theorem assocGet_arrFields_nondigit (xs : List JVal) (k : String)
    (hk : ∃ c ∈ k.data, c.isDigit = false) :
    assocGet (arrFields xs) k = none := by
  have h := assocGet_natkey_none (β := JVal) xs.enum k hk
  simpa [arrFields] using h

theorem assocGet_strFields_nondigit (s : String) (k : String)
    (hk : ∃ c ∈ k.data, c.isDigit = false) :
    assocGet (strFields s) k = none := by
  have h := assocGet_natkey_none (β := JVal)
    (s.data.enum.map (fun p => (p.1, JVal.str (String.mk [p.2])))) k hk
  simpa [strFields, List.map_map, Function.comp] using h


theorem jsParseInt_a : jsParseInt "a" = none := rfl
theorem jsParseInt_b : jsParseInt "b" = none := rfl
theorem jsParseInt_zero : jsParseInt "0" = some 0 := rfl

theorem nondigit_a : ∃ c ∈ ("a" : String).data, c.isDigit = false := ⟨'a', by decide, rfl⟩
theorem nondigit_b : ∃ c ∈ ("b" : String).data, c.isDigit = false := ⟨'b', by decide, rfl⟩

theorem jsGet_null (k : String) : jsGet .null k = none := rfl
theorem jsGet_bool (b : Bool) (k : String) : jsGet (.bool b) k = none := rfl
theorem jsGet_num (n : Int) (k : String) : jsGet (.num n) k = none := rfl

theorem jsGet_str_a (s : String) : jsGet (.str s) "a" = none := by
  simp [jsGet, assocGet_strFields_nondigit s "a" nondigit_a]

theorem jsGet_str_b (s : String) : jsGet (.str s) "b" = none := by
  simp [jsGet, assocGet_strFields_nondigit s "b" nondigit_b]

theorem jsGet_arr_a (xs : List JVal) : jsGet (.arr xs) "a" = none := by
  simp [jsGet, assocGet_arrFields_nondigit xs "a" nondigit_a]

theorem jsGet_arr_b (xs : List JVal) : jsGet (.arr xs) "b" = none := by
  simp [jsGet, assocGet_arrFields_nondigit xs "b" nondigit_b]

/-- Claim C6: for every object containing a value at `$.a.b[0]`,
`setValueAtPath obj "$.a.b[0]" 5` returns an object on which navigating to
`$.a.b[0]` yields value `5` with `exists = true`. The original `obj` is
untouched by construction: `setValueAtPath` is a pure function of the embedding
(mirroring the JSON deep clone the source takes before mutating). -/
theorem setValueAtPath_navigate_roundtrip (obj : JVal)
    (hex : navExists (navigateToPath obj "$.a.b[0]") = true) :
    ∃ obj', setValueAtPath obj "$.a.b[0]" (.num 5) = .ok obj' ∧
      navExists (navigateToPath obj' "$.a.b[0]") = true ∧
      navValue (navigateToPath obj' "$.a.b[0]") = some (.num 5) := by
  have hred : ∀ o : JVal, navigateToPath o "$.a.b[0]" = navCore (some o) ["a", "b", "0"] [] :=
    fun o => rfl
  rw [hred] at hex
  cases obj with
  | null => simp [navCore, jsParseInt_a, jsGet_null, navExists] at hex
  | bool b0 => simp [navCore, jsParseInt_a, jsGet_bool, navExists] at hex
  | num n0 => simp [navCore, jsParseInt_a, jsGet_num, navExists] at hex
  | str s0 => simp [navCore, jsParseInt_a, jsGet_str_a, navExists] at hex
  | arr xs0 => simp [navCore, jsParseInt_a, jsGet_arr_a, navExists] at hex
  | obj fs =>
    rcases hA : assocGet fs "a" with _ | w
    · simp [navCore, jsParseInt_a, jsGet_obj, hA, navExists] at hex
    · by_cases hwn : jsIsNull w
      · simp [navCore, jsParseInt_a, jsGet_obj, hA, hwn, navExists] at hex
      · have hex1 : navExists (navCore (some w) ["b", "0"] [Step.fld "a"]) = true := by
          rw [show navCore (some (.obj fs)) ["a","b","0"] [] =
            navCore (some w) ["b", "0"] [Step.fld "a"] from by
              simp [navCore, jsParseInt_a, jsGet_obj, hA, hwn]] at hex
          exact hex
        clear hex
        cases w with
        | null => simp [jsIsNull] at hwn
        | bool b1 => simp [navCore, jsParseInt_b, jsGet_bool, navExists] at hex1
        | num n1 => simp [navCore, jsParseInt_b, jsGet_num, navExists] at hex1
        | str s1 => simp [navCore, jsParseInt_b, jsGet_str_b, navExists] at hex1
        | arr xs1 => simp [navCore, jsParseInt_b, jsGet_arr_b, navExists] at hex1
        | obj gs =>
          rcases hB : assocGet gs "b" with _ | u
          · simp [navCore, jsParseInt_b, jsGet_obj, hB, navExists] at hex1
          · by_cases hun : jsIsNull u
            · simp [navCore, jsParseInt_b, jsGet_obj, hB, hun, navExists] at hex1
            · have hex2 : navExists (navCore (some u) ["0"]
                  [Step.fld "a", Step.fld "b"]) = true := by
                rw [show navCore (some (.obj gs)) ["b","0"] [Step.fld "a"] =
                  navCore (some u) ["0"] [Step.fld "a", Step.fld "b"] from by
                    simp [navCore, jsParseInt_b, jsGet_obj, hB, hun]] at hex1
                exact hex1
              clear hex1
              cases u with
              | null => simp [jsIsNull] at hun
              | bool b2 => simp [navCore, jsParseInt_zero, navExists] at hex2
              | num n2 => simp [navCore, jsParseInt_zero, navExists] at hex2
              | str s2 => simp [navCore, jsParseInt_zero, navExists] at hex2
              | arr ys =>
                have hnavu : navCore (some (JVal.arr ys)) ["0"] [Step.fld "a", Step.fld "b"] =
                    .at_ [Step.fld "a", Step.fld "b"] (.idx 0)
                      (decide ((0:Int) ≤ 0) && decide ((0:Int) < (ys.length : Int)))
                      (arrGetI ys 0) := by
                  simp [navCore, jsParseInt_zero]
                have hlen : 0 < ys.length := by
                  rw [hnavu] at hex2
                  simp [navExists] at hex2
                  exact_mod_cast hex2
                have hlenI : (0 : Int) < (ys.length : Int) := by exact_mod_cast hlen
                have hnav : navigateToPath (JVal.obj fs) "$.a.b[0]" =
                    .at_ [Step.fld "a", Step.fld "b"] (.idx 0) true (arrGetI ys 0) := by
                  rw [hred]
                  rw [show navCore (some (JVal.obj fs)) ["a","b","0"] [] =
                    navCore (some (JVal.obj gs)) ["b","0"] [Step.fld "a"] from by
                      simp [navCore, jsParseInt_a, jsGet_obj, hA, hwn]]
                  rw [show navCore (some (JVal.obj gs)) ["b","0"] [Step.fld "a"] =
                    navCore (some (JVal.arr ys)) ["0"] [Step.fld "a", Step.fld "b"] from by
                      simp [navCore, jsParseInt_b, jsGet_obj, hB, hun]]
                  rw [hnavu]
                  simp [hlenI]
                have hsetv : setValueAtPath (JVal.obj fs) "$.a.b[0]" (.num 5) =
                    .ok (setAtSteps (JVal.obj fs) [Step.fld "a", Step.fld "b"]
                      (.idx 0) (.num 5)) := by
                  unfold setValueAtPath
                  rw [if_neg (by decide), hnav]
                have hinner : setAtSteps (JVal.obj fs) [Step.fld "a", Step.fld "b"]
                    (.idx 0) (.num 5) =
                    .obj (assocModify fs "a" (fun ch =>
                      setAtSteps ch [Step.fld "b"] (.idx 0) (.num 5))) := by
                  simp [setAtSteps]
                have hgy : arrGetI (ys.set 0 (JVal.num 5)) 0 = some (.num 5) := by
                  have h00 : ¬ ((0:Int) < 0) := by decide
                  simp only [arrGetI, h00, if_false, Int.toNat_zero]
                  rw [List.get?_eq_getElem?, List.getElem?_set_self (by simpa using hlen)]
                have hnav2 : navigateToPath (JVal.obj (assocModify fs "a" (fun ch =>
                    setAtSteps ch [Step.fld "b"] (.idx 0) (.num 5)))) "$.a.b[0]" =
                    .at_ [Step.fld "a", Step.fld "b"] (.idx 0) true (some (.num 5)) := by
                  rw [hred]
                  rw [show navCore (some (JVal.obj (assocModify fs "a" (fun ch =>
                      setAtSteps ch [Step.fld "b"] (.idx 0) (.num 5))))) ["a","b","0"] [] =
                    navCore (some (setAtSteps (JVal.obj gs) [Step.fld "b"] (.idx 0) (.num 5)))
                      ["b","0"] [Step.fld "a"] from by
                      simp [navCore, jsParseInt_a, jsGet_obj, assocGet_assocModify, hA,
                        setAtSteps, jsIsNull, assocModify]]
                  rw [show setAtSteps (JVal.obj gs) [Step.fld "b"] (.idx 0) (.num 5) =
                    .obj (assocModify gs "b" (fun ch =>
                      setAtSteps ch [] (.idx 0) (.num 5))) from by simp [setAtSteps]]
                  rw [show navCore (some (JVal.obj (assocModify gs "b" (fun ch =>
                      setAtSteps ch [] (.idx 0) (.num 5))))) ["b","0"] [Step.fld "a"] =
                    navCore (some (setAtSteps (JVal.arr ys) [] (.idx 0) (.num 5)))
                      ["0"] [Step.fld "a", Step.fld "b"] from by
                      simp [navCore, jsParseInt_b, jsGet_obj, assocGet_assocModify, hB,
                        setAtSteps, jsAssign, jsIsNull, hlen]]
                  rw [show setAtSteps (JVal.arr ys) [] (.idx 0) (.num 5) =
                    .arr (ys.set 0 (.num 5)) from by
                      simp [setAtSteps, jsAssign, hlen]]
                  rw [show navCore (some (JVal.arr (ys.set 0 (.num 5))))
                      ["0"] [Step.fld "a", Step.fld "b"] =
                    .at_ [Step.fld "a", Step.fld "b"] (.idx 0)
                      (decide ((0:Int) ≤ 0) &&
                        decide ((0:Int) < ((ys.set 0 (JVal.num 5)).length : Int)))
                      (arrGetI (ys.set 0 (.num 5)) 0) from by
                      simp [navCore, jsParseInt_zero]]
                  rw [hgy]
                  simp [List.length_set, hlenI]
                exact ⟨_, hinner ▸ hsetv, by rw [hnav2]; rfl, by rw [hnav2]; rfl⟩
              | obj hs =>
                have hnavu : navCore (some (JVal.obj hs)) ["0"] [Step.fld "a", Step.fld "b"] =
                    .at_ [Step.fld "a", Step.fld "b"] (.fld "0")
                      (jsHas (.obj hs) "0") (jsGet (.obj hs) "0") := by
                  simp [navCore, jsParseInt_zero]
                have h0 : ∃ u0, assocGet hs "0" = some u0 := by
                  rw [hnavu] at hex2
                  simp [navExists, jsHas, Option.isSome_iff_exists] at hex2
                  exact hex2
                obtain ⟨u0, h0⟩ := h0
                have hnav : navigateToPath (JVal.obj fs) "$.a.b[0]" =
                    .at_ [Step.fld "a", Step.fld "b"] (.fld "0") true (some u0) := by
                  rw [hred]
                  rw [show navCore (some (JVal.obj fs)) ["a","b","0"] [] =
                    navCore (some (JVal.obj gs)) ["b","0"] [Step.fld "a"] from by
                      simp [navCore, jsParseInt_a, jsGet_obj, hA, hwn]]
                  rw [show navCore (some (JVal.obj gs)) ["b","0"] [Step.fld "a"] =
                    navCore (some (JVal.obj hs)) ["0"] [Step.fld "a", Step.fld "b"] from by
                      simp [navCore, jsParseInt_b, jsGet_obj, hB, hun]]
                  rw [hnavu]
                  simp [jsHas, jsGet_obj, h0]
                have hsetv : setValueAtPath (JVal.obj fs) "$.a.b[0]" (.num 5) =
                    .ok (setAtSteps (JVal.obj fs) [Step.fld "a", Step.fld "b"]
                      (.fld "0") (.num 5)) := by
                  unfold setValueAtPath
                  rw [if_neg (by decide), hnav]
                have hinner : setAtSteps (JVal.obj fs) [Step.fld "a", Step.fld "b"]
                    (.fld "0") (.num 5) =
                    .obj (assocModify fs "a" (fun ch =>
                      setAtSteps ch [Step.fld "b"] (.fld "0") (.num 5))) := by
                  simp [setAtSteps]
                have hnav2 : navigateToPath (JVal.obj (assocModify fs "a" (fun ch =>
                    setAtSteps ch [Step.fld "b"] (.fld "0") (.num 5)))) "$.a.b[0]" =
                    .at_ [Step.fld "a", Step.fld "b"] (.fld "0") true (some (.num 5)) := by
                  rw [hred]
                  rw [show navCore (some (JVal.obj (assocModify fs "a" (fun ch =>
                      setAtSteps ch [Step.fld "b"] (.fld "0") (.num 5))))) ["a","b","0"] [] =
                    navCore (some (setAtSteps (JVal.obj gs) [Step.fld "b"] (.fld "0") (.num 5)))
                      ["b","0"] [Step.fld "a"] from by
                      simp [navCore, jsParseInt_a, jsGet_obj, assocGet_assocModify, hA,
                        setAtSteps, jsIsNull, assocModify]]
                  rw [show setAtSteps (JVal.obj gs) [Step.fld "b"] (.fld "0") (.num 5) =
                    .obj (assocModify gs "b" (fun ch =>
                      setAtSteps ch [] (.fld "0") (.num 5))) from by simp [setAtSteps]]
                  rw [show navCore (some (JVal.obj (assocModify gs "b" (fun ch =>
                      setAtSteps ch [] (.fld "0") (.num 5))))) ["b","0"] [Step.fld "a"] =
                    navCore (some (setAtSteps (JVal.obj hs) [] (.fld "0") (.num 5)))
                      ["0"] [Step.fld "a", Step.fld "b"] from by
                      simp [navCore, jsParseInt_b, jsGet_obj, assocGet_assocModify, hB,
                        setAtSteps, jsAssign, jsIsNull]]
                  rw [show setAtSteps (JVal.obj hs) [] (.fld "0") (.num 5) =
                    .obj (assocSet hs "0" (.num 5)) from by simp [setAtSteps, jsAssign]]
                  rw [show navCore (some (JVal.obj (assocSet hs "0" (.num 5))))
                      ["0"] [Step.fld "a", Step.fld "b"] =
                    .at_ [Step.fld "a", Step.fld "b"] (.fld "0")
                      (jsHas (.obj (assocSet hs "0" (.num 5))) "0")
                      (jsGet (.obj (assocSet hs "0" (.num 5))) "0") from by
                      simp [navCore, jsParseInt_zero]]
                  simp [jsHas, jsGet_obj, assocGet_assocSet]
                exact ⟨_, hinner ▸ hsetv, by rw [hnav2]; rfl, by rw [hnav2]; rfl⟩

/-- Witness for the roundtrip theorem at the object `{a: {b: [1]}}`. -/
theorem setValueAtPath_navigate_roundtrip_witness :
    ∃ obj', setValueAtPath (.obj [("a", .obj [("b", .arr [.num 1])])]) "$.a.b[0]"
        (.num 5) = .ok obj' ∧
      navExists (navigateToPath obj' "$.a.b[0]") = true ∧
      navValue (navigateToPath obj' "$.a.b[0]") = some (.num 5) :=
  setValueAtPath_navigate_roundtrip (.obj [("a", .obj [("b", .arr [.num 1])])]) rfl

end DashboardBuilder
